import Mathlib

/-!
# Verification of the course/presentation generation backend

Shallow embedding of the backend's prompt-construction, response-extraction,
typed-result-mapping, validation and classification logic, together with
theorems settling the specification claims about them.

Sources embedded (file → section below):
* `backend/course_service.py` — title/outline/script orchestration,
  `call_lovable_ai` failure classification, `extract_json_from_response`.
* `backend/slides_service.py` — slide generation: `call_ai` failure
  classification, its own `extract_json_from_response`, the user prompt with
  its 6000-character ceiling, and the slide mapping loop (content
  normalization, layout-variety enforcement).
* `backend/content_enhancement_service.py` — quiz/exercise generation,
  inline fenced-block extraction (no brace fallback), 3000-character ceilings.
* `backend/ai_utils_service.py` — structure/manuscript analysis with their
  deterministic fallback objects, 10000-character ceiling.
* `backend/presenton_service.py` — `detect_content_type`,
  `analyze_topic_context`.

The Python standard-library pieces the code leans on are modelled
executably: `json.dumps` / `json.loads` (JSON numbers are modelled as exact
integers; floating-point literals are outside the model), the two regular
expressions used for extraction, `str.strip`, `str.lower`, slicing and the
`in` substring test.
-/

/-! ## Characters and character-list utilities -/

/-- Python's `\s` class (and the default `str.strip` set), ASCII part:
space, tab, newline, carriage return, vertical tab, form feed. -/
def pyIsSpace (c : Char) : Bool :=
  c = ' ' || c = '\t' || c = '\n' || c = '\r' || c = '\x0b' || c = '\x0c'

/-- Decimal digit test, as in the JSON grammar. -/
def isDigitChar (c : Char) : Bool := '0' ≤ c && c ≤ '9'

/-- Hexadecimal digit test (for `\uXXXX` escapes). -/
def isHexChar (c : Char) : Bool :=
  isDigitChar c || ('a' ≤ c && c ≤ 'f') || ('A' ≤ c && c ≤ 'F')

/-- Numeric value of a hexadecimal digit character. -/
def hexCharVal (c : Char) : Nat :=
  if isDigitChar c then c.toNat - '0'.toNat
  else if 'a' ≤ c && c ≤ 'f' then c.toNat - 'a'.toNat + 10
  else c.toNat - 'A'.toNat + 10

/-- Lower-case hexadecimal digit character of `n < 16` (as `json.dumps` emits). -/
def hexDigitChar (n : Nat) : Char :=
  if n < 10 then Char.ofNat ('0'.toNat + n) else Char.ofNat ('a'.toNat + n - 10)

/-- Decimal digit character of `n < 10`. -/
def decDigitChar (n : Nat) : Char := Char.ofNat ('0'.toNat + n)

/-- Drop leading JSON/Python whitespace. -/
def wsDrop (l : List Char) : List Char := l.dropWhile pyIsSpace

/-- Model of Python `str.strip()`: remove whitespace from both ends. -/
def pyStrip (l : List Char) : List Char := ((wsDrop l).reverse.dropWhile pyIsSpace).reverse

/-- Does `pat` occur at the head of `l`? (model of `str.startswith`). -/
def headMatches : List Char → List Char → Bool
  | [], _ => true
  | _ :: _, [] => false
  | p :: ps, c :: cs => p = c && headMatches ps cs

/-- Split `l` at the first occurrence of `pat` (nonempty), returning the text
before the occurrence and the text after it.  `none` when `pat` never occurs.
This is the engine behind the two `re.search` models below. -/
def splitFirst (pat : List Char) : List Char → Option (List Char × List Char)
  | [] => none
  | c :: cs =>
    if headMatches pat (c :: cs) then some ([], (c :: cs).drop pat.length)
    else match splitFirst pat cs with
      | some (before, after) => some (c :: before, after)
      | none => none

/-- Does `pat` occur anywhere in `l`? (model of Python's `in` on strings). -/
def hasSubList (pat l : List Char) : Bool := (splitFirst pat l).isSome

/-- Model of Python's `needle in haystack` substring test. -/
def pyContains (haystack needle : String) : Bool := hasSubList needle.data haystack.data

/-- Model of Python `str.lower()` (ASCII case folding suffices here). -/
def pyLower (s : String) : String := ⟨s.data.map Char.toLower⟩

/-- Model of Python slicing `s[:n]`. -/
def pyTake (n : Nat) (s : String) : String := ⟨s.data.take n⟩

/-- Model of Python `str.strip()` on `String`. -/
def pyStripS (s : String) : String := ⟨pyStrip s.data⟩

/-! ## JSON values

`Json` models the values `json.loads` produces: `None`, booleans, numbers,
strings, lists and dicts (as key/value lists in insertion order).  Numbers are
modelled as exact integers; the claims under study never involve floats. -/

inductive Json where
  | null : Json
  | bool (b : Bool) : Json
  | num (n : Int) : Json
  | str (s : String) : Json
  | arr (elems : List Json) : Json
  | obj (members : List (String × Json)) : Json

mutual
/-- Structural equality test on JSON values (model of Python `==` on the
values `json.loads` returns, restricted to this fragment). -/
def jsonBEq : Json → Json → Bool
  | .null, .null => true
  | .bool a, .bool b => a == b
  | .num a, .num b => a == b
  | .str a, .str b => a == b
  | .arr a, .arr b => jsonBEqArr a b
  | .obj a, .obj b => jsonBEqObj a b
  | _, _ => false
def jsonBEqArr : List Json → List Json → Bool
  | [], [] => true
  | x :: xs, y :: ys => jsonBEq x y && jsonBEqArr xs ys
  | _, _ => false
def jsonBEqObj : List (String × Json) → List (String × Json) → Bool
  | [], [] => true
  | (k, v) :: ms, (k2, v2) :: ms2 => k == k2 && jsonBEq v v2 && jsonBEqObj ms ms2
  | _, _ => false
end

mutual
theorem jsonBEq_eq : ∀ a b : Json, jsonBEq a b = true ↔ a = b
  | .null, b => by cases b <;> simp [jsonBEq]
  | .bool x, b => by cases b <;> simp [jsonBEq]
  | .num x, b => by cases b <;> simp [jsonBEq]
  | .str x, b => by cases b <;> simp [jsonBEq]
  | .arr xs, b => by
      cases b with
      | arr ys => simpa [jsonBEq] using jsonBEqArr_eq xs ys
      | null | bool _ | num _ | str _ | obj _ => simp [jsonBEq]
  | .obj ms, b => by
      cases b with
      | obj ms2 => simpa [jsonBEq] using jsonBEqObj_eq ms ms2
      | null | bool _ | num _ | str _ | arr _ => simp [jsonBEq]
theorem jsonBEqArr_eq : ∀ a b : List Json, jsonBEqArr a b = true ↔ a = b
  | [], b => by cases b <;> simp [jsonBEqArr]
  | x :: xs, b => by
      cases b with
      | nil => simp [jsonBEqArr]
      | cons y ys =>
          simp [jsonBEqArr, jsonBEq_eq x y, jsonBEqArr_eq xs ys]
theorem jsonBEqObj_eq : ∀ a b : List (String × Json), jsonBEqObj a b = true ↔ a = b
  | [], b => by cases b <;> simp [jsonBEqObj]
  | (k, v) :: ms, b => by
      cases b with
      | nil => simp [jsonBEqObj]
      | cons kv2 ms2 =>
          obtain ⟨k2, v2⟩ := kv2
          simp [jsonBEqObj, jsonBEq_eq v v2, jsonBEqObj_eq ms ms2, and_assoc]
end

instance : DecidableEq Json := fun a b => decidable_of_iff _ (jsonBEq_eq a b)

instance : BEq Json := ⟨jsonBEq⟩

mutual
/-- A size measure driving the parser's fuel-sufficiency argument. -/
def jsonSize : Json → Nat
  | .null | .bool _ | .num _ | .str _ => 1
  | .arr elems => 1 + jsonSizeArr elems
  | .obj members => 1 + jsonSizeObj members
def jsonSizeArr : List Json → Nat
  | [] => 0
  | e :: es => 1 + jsonSize e + jsonSizeArr es
def jsonSizeObj : List (String × Json) → Nat
  | [] => 0
  | (_, v) :: ms => 1 + jsonSize v + jsonSizeObj ms
end

/-! ## Model of `json.dumps` (compact, exact-integer fragment)

One character, escaped for a JSON string literal.  `json.dumps` emits `\"` and
`\\` for the two metacharacters and a `\uOOXX` form for control characters;
all other characters appear literally (`ensure_ascii` only changes the spelling
of non-ASCII characters, not what `json.loads` recovers, so the model keeps
them literal). -/
def jsonEscChar (c : Char) : List Char :=
  if c = '"' then ['\\', '"']
  else if c = '\\' then ['\\', '\\']
  else if c.toNat < 32 then
    ['\\', 'u', '0', '0', hexDigitChar (c.toNat / 16), hexDigitChar (c.toNat % 16)]
  else [c]

/-- A string body, escaped character by character. -/
def jsonEscBody : List Char → List Char
  | [] => []
  | c :: cs => jsonEscChar c ++ jsonEscBody cs

/-- A complete JSON string literal for `s`. -/
def jsonStrLit (s : String) : List Char := '"' :: jsonEscBody s.data ++ ['"']

/-- Decimal digits of `n`, most significant first, accumulated onto `acc`;
`fuel ≥ n + 1` always suffices, so `natDecChars` below is total. -/
def natDecCharsAux : Nat → Nat → List Char → List Char
  | 0, _, acc => acc
  | fuel + 1, n, acc =>
    if n < 10 then decDigitChar n :: acc
    else natDecCharsAux fuel (n / 10) (decDigitChar (n % 10) :: acc)

/-- Decimal digits of `n`, most significant first. -/
def natDecChars (n : Nat) : List Char := natDecCharsAux (n + 1) n []

/-- The decimal rendering of an integer, as `str`/`json.dumps` print it. -/
def intChars (n : Int) : List Char :=
  if n < 0 then '-' :: natDecChars n.natAbs else natDecChars n.natAbs

mutual
/-- Model of `json.dumps` with compact separators, to a character list. -/
def dumpsL : Json → List Char
  | .null => ['n', 'u', 'l', 'l']
  | .num n => intChars n
  | .bool true => ['t', 'r', 'u', 'e']
  | .bool false => ['f', 'a', 'l', 's', 'e']
  | .str s => jsonStrLit s
  | .arr elems => '[' :: dumpsArr elems ++ [']']
  | .obj members => '\x7b' :: dumpsObj members ++ ['\x7d']
/-- Array elements, comma separated. -/
def dumpsArr : List Json → List Char
  | [] => []
  | e :: es => dumpsL e ++ (match es with | [] => [] | _ :: _ => ',' :: dumpsArr es)
/-- Object members, `"key":value`, comma separated. -/
def dumpsObj : List (String × Json) → List Char
  | [] => []
  | (k, v) :: ms =>
    jsonStrLit k ++ ':' :: dumpsL v
      ++ (match ms with | [] => [] | _ :: _ => ',' :: dumpsObj ms)
end

/-- `json.dumps` as a `String`. -/
def dumps (j : Json) : String := ⟨dumpsL j⟩

/-! ## Model of `json.loads` (strict parsing)

A fuel-indexed recursive-descent parser for the grammar `json.loads` accepts,
restricted to exact-integer numbers (the fragment the claims exercise; a float
literal is reported as unparsable by this model instead of producing a float).
`fuel = length + 1` always suffices for inputs this model can accept, which
the fuel-sufficiency lemmas below make precise for serialized values. -/

/-- One-character escape decodings (the table `json.loads` accepts). -/
def escTable (e : Char) : Option Char :=
  if e = '"' then some '"'
  else if e = '\\' then some '\\'
  else if e = '/' then some '/'
  else if e = 'b' then some '\x08'
  else if e = 'f' then some '\x0c'
  else if e = 'n' then some '\n'
  else if e = 'r' then some '\r'
  else if e = 't' then some '\t'
  else none

/-- The string-body scanner: everything after an opening `"` up to the closing
`"`, decoding escapes, rejecting raw control characters (strict mode).
Structural on `fuel`; each step consumes at least one character, so
`fuel = length + 1` always suffices. -/
def scanStrF : Nat → List Char → Except String (List Char × List Char)
  | 0, _ => .error "Unterminated string"
  | fuel + 1, l =>
    match l with
    | [] => .error "Unterminated string"
    | c :: rest =>
      if c = '"' then .ok ([], rest)
      else if c = '\\' then
        match rest with
        | 'u' :: h1 :: h2 :: h3 :: h4 :: r2 =>
          if isHexChar h1 && isHexChar h2 && isHexChar h3 && isHexChar h4 then
            match scanStrF fuel r2 with
            | .ok (s, r) =>
              .ok (Char.ofNat (((hexCharVal h1 * 16 + hexCharVal h2) * 16
                + hexCharVal h3) * 16 + hexCharVal h4) :: s, r)
            | .error e => .error e
          else .error "Invalid \\uXXXX escape"
        | e :: r2 =>
          (match escTable e with
           | some d =>
             (match scanStrF fuel r2 with
              | .ok (s, r) => .ok (d :: s, r)
              | .error e2 => .error e2)
           | none => .error "Invalid \\escape")
        | [] => .error "Unterminated string"
      else if c.toNat < 32 then .error "Invalid control character"
      else
        match scanStrF fuel rest with
        | .ok (s, r) => .ok (c :: s, r)
        | .error e => .error e

/-- The string-body scanner with always-sufficient fuel. -/
def scanStringBody (l : List Char) : Except String (List Char × List Char) :=
  scanStrF (l.length + 1) l

/-- A maximal run of decimal digits, as a number (no leading-`0` check: the
serializer never emits one, and no claim depends on rejecting them). -/
def scanDigits (cs : List Char) : Except String (Nat × List Char) :=
  let ds := cs.takeWhile isDigitChar
  if ds.isEmpty then .error "Expecting value"
  else .ok (ds.foldl (fun acc c => 10 * acc + (c.toNat - '0'.toNat)) 0,
            cs.dropWhile isDigitChar)

/-- Parser modes: a single value, the items of a nonempty array (through the
closing `]`), or the members of a nonempty object (through the closing `}`). -/
inductive LoadMode where
  | value | arrItems | objItems

/-- Parser results, one shape per mode. -/
inductive LoadOut where
  | value (j : Json) (rest : List Char)
  | arrItems (elems : List Json) (rest : List Char)
  | objItems (members : List (String × Json)) (rest : List Char)

/-- The recursive descent engine, structural on `fuel`. -/
def loadsF : Nat → LoadMode → List Char → Except String LoadOut
  | 0, _, _ => .error "Recursion limit exceeded"
  | fuel + 1, .value, cs =>
    match cs with
    | [] => .error "Expecting value"
    | c :: r =>
      if c = 'n' then
        match r with
        | 'u' :: 'l' :: 'l' :: r2 => .ok (.value .null r2)
        | _ => .error "Expecting value"
      else if c = 't' then
        match r with
        | 'r' :: 'u' :: 'e' :: r2 => .ok (.value (.bool true) r2)
        | _ => .error "Expecting value"
      else if c = 'f' then
        match r with
        | 'a' :: 'l' :: 's' :: 'e' :: r2 => .ok (.value (.bool false) r2)
        | _ => .error "Expecting value"
      else if c = '"' then
        match scanStringBody r with
        | .ok (s, r2) => .ok (.value (.str ⟨s⟩) r2)
        | .error e => .error e
      else if c = '-' then
        match scanDigits r with
        | .ok (n, r2) => .ok (.value (.num (-(n : Int))) r2)
        | .error e => .error e
      else if c = '[' then
        match wsDrop r with
        | [] => .error "Expecting value"
        | c2 :: r2 =>
          if c2 = ']' then .ok (.value (.arr []) r2)
          else
            match loadsF fuel .arrItems (c2 :: r2) with
            | .ok (.arrItems elems rest) => .ok (.value (.arr elems) rest)
            | .ok _ => .error "Expecting value"
            | .error e => .error e
      else if c = '\x7b' then
        match wsDrop r with
        | [] => .error "Expecting property name"
        | c2 :: r2 =>
          if c2 = '\x7d' then .ok (.value (.obj []) r2)
          else
            match loadsF fuel .objItems (c2 :: r2) with
            | .ok (.objItems members rest) => .ok (.value (.obj members) rest)
            | .ok _ => .error "Expecting value"
            | .error e => .error e
      else if isDigitChar c then
        match scanDigits (c :: r) with
        | .ok (n, r2) => .ok (.value (.num (n : Int)) r2)
        | .error e => .error e
      else .error "Expecting value"
  | fuel + 1, .arrItems, cs =>
    match loadsF fuel .value (wsDrop cs) with
    | .ok (.value j r) =>
      (match wsDrop r with
       | ',' :: r2 =>
         (match loadsF fuel .arrItems r2 with
          | .ok (.arrItems elems rest) => .ok (.arrItems (j :: elems) rest)
          | .ok _ => .error "Expecting value"
          | .error e => .error e)
       | ']' :: r2 => .ok (.arrItems [j] r2)
       | _ => .error "Expecting delimiter")
    | .ok _ => .error "Expecting value"
    | .error e => .error e
  | fuel + 1, .objItems, cs =>
    match wsDrop cs with
    | '"' :: r =>
      (match scanStringBody r with
       | .ok (k, r1) =>
         (match wsDrop r1 with
          | ':' :: r2 =>
            (match loadsF fuel .value (wsDrop r2) with
             | .ok (.value j r3) =>
               (match wsDrop r3 with
                | ',' :: r4 =>
                  (match loadsF fuel .objItems r4 with
                   | .ok (.objItems members rest) =>
                     .ok (.objItems ((⟨k⟩, j) :: members) rest)
                   | .ok _ => .error "Expecting value"
                   | .error e => .error e)
                | '\x7d' :: r4 => .ok (.objItems [(⟨k⟩, j)] r4)
                | _ => .error "Expecting delimiter")
             | .ok _ => .error "Expecting value"
             | .error e => .error e)
          | _ => .error "Expecting colon")
       | .error e => .error e)
    | _ => .error "Expecting property name"

/-- Model of `json.loads` on a character list: one value, surrounded by
optional whitespace. -/
def loadsL (l : List Char) : Except String Json :=
  match loadsF (l.length + 1) .value (wsDrop l) with
  | .ok (.value j rest) =>
    if (wsDrop rest).isEmpty then .ok j else .error "Extra data"
  | .ok _ => .error "Expecting value"
  | .error e => .error e

/-- Model of `json.loads` on a `String`. -/
def loads (s : String) : Except String Json := loadsL s.data

/-! ## Round-trip: `loads` inverts `dumps`

The extraction claims quantify over arbitrary JSON values, so the embedding
needs the codec round-trip `loads (dumps j) = .ok j` as a lemma. -/

theorem jsonSize_pos : ∀ j : Json, 1 ≤ jsonSize j := by
  intro j; cases j <;> simp [jsonSize]

theorem decDigitChar_spec (k : Nat) (h : k < 10) :
    isDigitChar (decDigitChar k) = true ∧ (decDigitChar k).toNat - '0'.toNat = k := by
  interval_cases k <;> decide

/-- A digit character opens none of the other value forms and is no
whitespace, separator or closer. -/
theorem decDigitChar_notOther (k : Nat) (h : k < 10) :
    decDigitChar k ≠ 'n' ∧ decDigitChar k ≠ 't' ∧ decDigitChar k ≠ 'f'
    ∧ decDigitChar k ≠ '"' ∧ decDigitChar k ≠ '-' ∧ decDigitChar k ≠ '['
    ∧ decDigitChar k ≠ '\x7b' ∧ pyIsSpace (decDigitChar k) = false
    ∧ decDigitChar k ≠ ']' ∧ decDigitChar k ≠ '\x7d' ∧ decDigitChar k ≠ ',' := by
  interval_cases k <;> decide

theorem hexDigitChar_spec (k : Nat) (h : k < 16) :
    isHexChar (hexDigitChar k) = true ∧ hexCharVal (hexDigitChar k) = k := by
  interval_cases k <;> decide

/-- `takeWhile` passes over a prefix every element of which satisfies `p`. -/
theorem takeWhile_all_append {p : Char → Bool} :
    ∀ l r : List Char, (∀ c ∈ l, p c = true) →
      (l ++ r).takeWhile p = l ++ r.takeWhile p := by
  intro l
  induction l with
  | nil => simp
  | cons c t ih =>
      intro r h
      have hc : p c = true := h c (by simp)
      simp [List.takeWhile_cons, hc, ih r (fun x hx => h x (by simp [hx]))]

/-- `dropWhile` consumes a prefix every element of which satisfies `p`. -/
theorem dropWhile_all_append {p : Char → Bool} :
    ∀ l r : List Char, (∀ c ∈ l, p c = true) →
      (l ++ r).dropWhile p = r.dropWhile p := by
  intro l
  induction l with
  | nil => simp
  | cons c t ih =>
      intro r h
      have hc : p c = true := h c (by simp)
      simp [List.dropWhile_cons, hc, ih r (fun x hx => h x (by simp [hx]))]

/-- A remainder that cannot extend a decimal digit run: empty or headed by a
non-digit.  All JSON separators and closers qualify. -/
def digitBoundary : List Char → Bool
  | [] => true
  | c :: _ => !isDigitChar c

/-- The accumulator in `natDecCharsAux` rides along unchanged on the right. -/
theorem natDecCharsAux_acc :
    ∀ (fuel n : Nat) (acc : List Char),
      natDecCharsAux fuel n acc = natDecCharsAux fuel n [] ++ acc := by
  intro fuel
  induction fuel with
  | zero => simp [natDecCharsAux]
  | succ f ih =>
      intro n acc
      by_cases h : n < 10
      · simp [natDecCharsAux, h]
      · simp only [natDecCharsAux, if_neg h]
        rw [ih (n / 10) (decDigitChar (n % 10) :: acc),
            ih (n / 10) [decDigitChar (n % 10)]]
        simp

theorem natDecChars_digits :
    ∀ (fuel n : Nat), n < fuel → ∀ c ∈ natDecCharsAux fuel n [], isDigitChar c = true := by
  intro fuel
  induction fuel with
  | zero => omega
  | succ f ih =>
      intro n hn c hc
      by_cases h : n < 10
      · simp [natDecCharsAux, h] at hc
        subst hc
        exact (decDigitChar_spec n h).1
      · simp only [natDecCharsAux, if_neg h] at hc
        rw [natDecCharsAux_acc] at hc
        rcases List.mem_append.mp hc with hm | hm
        · exact ih (n / 10) (by omega) c hm
        · simp at hm
          subst hm
          exact (decDigitChar_spec (n % 10) (by omega)).1

theorem natDecChars_fold :
    ∀ (fuel n : Nat), n < fuel →
      (natDecCharsAux fuel n []).foldl (fun acc c => 10 * acc + (c.toNat - '0'.toNat)) 0 = n := by
  intro fuel
  induction fuel with
  | zero => omega
  | succ f ih =>
      intro n hn
      by_cases h : n < 10
      · have h2 := (decDigitChar_spec n h).2
        simp [natDecCharsAux, h]
        simpa using h2
      · have h2 := (decDigitChar_spec (n % 10) (by omega)).2
        simp only [natDecCharsAux, if_neg h]
        rw [natDecCharsAux_acc, List.foldl_append, ih (n / 10) (by omega)]
        simp only [List.foldl_cons, List.foldl_nil]
        rw [h2]
        omega

/-- A digit rendering is nonempty and starts with a digit character. -/
theorem natDecChars_cons (n : Nat) :
    ∃ k t, k < 10 ∧ natDecChars n = decDigitChar k :: t := by
  unfold natDecChars
  suffices h : ∀ fuel m, m < fuel → ∃ k t, k < 10 ∧ natDecCharsAux fuel m [] = decDigitChar k :: t from
    h (n + 1) n (by omega)
  intro fuel
  induction fuel with
  | zero => omega
  | succ f ih =>
      intro m hm
      by_cases h : m < 10
      · exact ⟨m, [], h, by simp [natDecCharsAux, h]⟩
      · obtain ⟨k, t, hk, ht⟩ := ih (m / 10) (by omega)
        refine ⟨k, t ++ [decDigitChar (m % 10)], hk, ?_⟩
        simp only [natDecCharsAux, if_neg h]
        rw [natDecCharsAux_acc, ht]
        simp

/-- `scanDigits` recovers exactly a rendered natural number when the remainder
cannot extend the digit run. -/
theorem scanDigits_exact (m : Nat) (rest : List Char) (hb : digitBoundary rest = true) :
    scanDigits (natDecChars m ++ rest) = .ok (m, rest) := by
  have hd : ∀ c ∈ natDecChars m, isDigitChar c = true :=
    natDecChars_digits (m + 1) m (by omega)
  have hr : rest.takeWhile isDigitChar = [] := by
    cases rest with
    | nil => rfl
    | cons c t =>
        simp only [digitBoundary, Bool.not_eq_true'] at hb
        simp [List.takeWhile_cons, hb]
  have hr2 : rest.dropWhile isDigitChar = rest := by
    cases rest with
    | nil => rfl
    | cons c t =>
        simp only [digitBoundary, Bool.not_eq_true'] at hb
        simp [List.dropWhile_cons, hb]
  obtain ⟨k, t, hk, hcons⟩ := natDecChars_cons m
  unfold scanDigits
  rw [takeWhile_all_append _ _ hd, dropWhile_all_append _ _ hd, hr, hr2]
  simp only [List.append_nil]
  rw [if_neg (by simp [hcons])]
  have hf := natDecChars_fold (m + 1) m (by omega)
  rw [show natDecCharsAux (m + 1) m [] = natDecChars m from rfl] at hf
  rw [hf]

/-- Scanning an escaped string body recovers the original characters
(fuel-indexed core). -/
theorem scanStrF_esc :
    ∀ (l : List Char) (fuel : Nat) (rest : List Char), l.length < fuel →
      scanStrF fuel (jsonEscBody l ++ '"' :: rest) = .ok (l, rest) := by
  intro l
  induction l with
  | nil =>
      intro fuel rest hf
      obtain ⟨f, rfl⟩ : ∃ f, fuel = f + 1 := ⟨fuel - 1, by omega⟩
      rfl
  | cons c t ih =>
      intro fuel rest hf
      obtain ⟨f, rfl⟩ : ∃ f, fuel = f + 1 := ⟨fuel - 1, by omega⟩
      have hlen : t.length < f := by simpa using hf
      by_cases h1 : c = '"'
      · subst h1
        simp [jsonEscBody, jsonEscChar, scanStrF, escTable, ih t.length.succ rest, ih f rest hlen]
      · by_cases h2 : c = '\\'
        · subst h2
          simp [jsonEscBody, jsonEscChar, scanStrF, escTable, ih f rest hlen]
        · by_cases h3 : c.toNat < 32
          · have hv1 := hexDigitChar_spec (c.toNat / 16) (by omega)
            have hv2 := hexDigitChar_spec (c.toNat % 16) (by omega)
            have harith :
                ((hexCharVal '0' * 16 + hexCharVal '0') * 16
                  + hexCharVal (hexDigitChar (c.toNat / 16))) * 16
                  + hexCharVal (hexDigitChar (c.toNat % 16)) = c.toNat := by
              rw [hv1.2, hv2.2]
              have h0 : hexCharVal '0' = 0 := by decide
              rw [h0]
              omega
            have hz : isHexChar '0' = true := by decide
            simp only [jsonEscBody, jsonEscChar, if_neg h1, if_neg h2, if_pos h3,
              List.cons_append, List.append_assoc, List.nil_append]
            simp [scanStrF, hz, hv1.1, hv2.1, harith, Char.ofNat_toNat, ih f rest hlen]
          · simp only [jsonEscBody, jsonEscChar, if_neg h1, if_neg h2, if_neg h3,
              List.cons_append, List.nil_append]
            simp [scanStrF, h1, h2, h3, ih f rest hlen]

/-- Escaping does not shorten a string. -/
theorem jsonEscBody_length (l : List Char) : l.length ≤ (jsonEscBody l).length := by
  induction l with
  | nil => simp [jsonEscBody]
  | cons c t ih =>
      have hc : 1 ≤ (jsonEscChar c).length := by
        unfold jsonEscChar
        split_ifs <;> simp
      simp only [jsonEscBody, List.length_append, List.length_cons]
      omega

/-- Scanning an escaped string body recovers the original characters. -/
theorem scanStringBody_esc (l rest : List Char) :
    scanStringBody (jsonEscBody l ++ '"' :: rest) = .ok (l, rest) := by
  unfold scanStringBody
  apply scanStrF_esc
  have := jsonEscBody_length l
  simp only [List.length_append, List.length_cons]
  omega

/-- Every serialized value begins with a character that is no whitespace and
none of the characters the surrounding grammar dispatches on. -/
theorem dumpsL_head (j : Json) :
    ∃ c t, dumpsL j = c :: t ∧ pyIsSpace c = false ∧ c ≠ ']' ∧ c ≠ '\x7d' ∧ c ≠ ',' := by
  cases j with
  | null => exact ⟨'n', _, rfl, by decide, by decide, by decide, by decide⟩
  | bool b =>
      cases b with
      | true => exact ⟨'t', _, rfl, by decide, by decide, by decide, by decide⟩
      | false => exact ⟨'f', _, rfl, by decide, by decide, by decide, by decide⟩
  | str s => exact ⟨'"', _, rfl, by decide, by decide, by decide, by decide⟩
  | arr es => exact ⟨'[', _, rfl, by decide, by decide, by decide, by decide⟩
  | obj ms => exact ⟨'\x7b', _, rfl, by decide, by decide, by decide, by decide⟩
  | num n =>
      by_cases hn : n < 0
      · exact ⟨'-', natDecChars n.natAbs, by simp [dumpsL, intChars, hn],
          by decide, by decide, by decide, by decide⟩
      · obtain ⟨k, t, hk, hcons⟩ := natDecChars_cons n.natAbs
        have hp := decDigitChar_notOther k hk
        exact ⟨decDigitChar k, t, by simp [dumpsL, intChars, hn, hcons],
          hp.2.2.2.2.2.2.2.1, hp.2.2.2.2.2.2.2.2.1, hp.2.2.2.2.2.2.2.2.2.1,
          hp.2.2.2.2.2.2.2.2.2.2⟩

/-- `wsDrop` does not touch a character list with a non-whitespace head. -/
theorem wsDrop_cons {c : Char} (t : List Char) (h : pyIsSpace c = false) :
    wsDrop (c :: t) = c :: t := by
  simp [wsDrop, List.dropWhile_cons, h]

/-- `wsDrop` does not touch serialized output. -/
theorem wsDrop_dumps (j : Json) (x : List Char) :
    wsDrop (dumpsL j ++ x) = dumpsL j ++ x := by
  obtain ⟨c, t, hj, hws, _, _, _⟩ := dumpsL_head j
  rw [hj, List.cons_append, wsDrop_cons _ hws]

/-- The `[`-branch of the value parser steps into item mode whenever the body
does not open with `]`. -/
theorem loadsF_arr_step (fuel : Nat) (X : List Char) (c : Char) (t : List Char)
    (hX : X = c :: t) (hws : pyIsSpace c = false) (hne : c ≠ ']') :
    loadsF (fuel + 1) .value ('[' :: X)
      = (match loadsF fuel .arrItems X with
         | .ok (.arrItems elems r) => .ok (.value (.arr elems) r)
         | .ok _ => .error "Expecting value"
         | .error e => .error e) := by
  subst hX
  simp [loadsF, wsDrop_cons _ hws, hne]

/-- The `{`-branch of the value parser steps into member mode whenever the
body does not open with `}`. -/
theorem loadsF_obj_step (fuel : Nat) (X : List Char) (c : Char) (t : List Char)
    (hX : X = c :: t) (hws : pyIsSpace c = false) (hne : c ≠ '\x7d') :
    loadsF (fuel + 1) .value ('\x7b' :: X)
      = (match loadsF fuel .objItems X with
         | .ok (.objItems members r) => .ok (.value (.obj members) r)
         | .ok _ => .error "Expecting value"
         | .error e => .error e) := by
  subst hX
  simp [loadsF, wsDrop_cons _ hws, hne]

/-- `loads` inverts `dumps`, fuel-indexed and mode by mode. -/
theorem loads_dumps_aux : ∀ fuel : Nat,
    (∀ (j : Json) (rest : List Char), jsonSize j < fuel → digitBoundary rest = true →
      loadsF fuel .value (dumpsL j ++ rest) = .ok (.value j rest))
  ∧ (∀ (e : Json) (es : List Json) (rest : List Char), jsonSizeArr (e :: es) < fuel →
      loadsF fuel .arrItems (dumpsArr (e :: es) ++ ']' :: rest)
        = .ok (.arrItems (e :: es) rest))
  ∧ (∀ (k : String) (v : Json) (ms : List (String × Json)) (rest : List Char),
      jsonSizeObj ((k, v) :: ms) < fuel →
      loadsF fuel .objItems (dumpsObj ((k, v) :: ms) ++ '\x7d' :: rest)
        = .ok (.objItems ((k, v) :: ms) rest)) := by
  intro fuel
  induction fuel with
  | zero =>
      refine ⟨fun j rest hs _ => ?_, fun e es rest hs => ?_, fun k v ms rest hs => ?_⟩
      · exact absurd hs (by omega)
      · exact absurd hs (by omega)
      · exact absurd hs (by omega)
  | succ f ih =>
      obtain ⟨ihv, iha, iho⟩ := ih
      refine ⟨fun j rest hs hb => ?_, fun e es rest hs => ?_, fun k v ms rest hs => ?_⟩
      · -- value mode
        cases j with
        | null => simp [dumpsL, loadsF]
        | bool b => cases b <;> simp [dumpsL, loadsF]
        | str s =>
            have h := scanStringBody_esc s.data rest
            simp [dumpsL, jsonStrLit, loadsF, h]
        | num n =>
            by_cases hn : n < 0
            · have hsd := scanDigits_exact n.natAbs rest hb
              simp [dumpsL, intChars, hn, loadsF, hsd]
              simp [abs_of_neg hn]
            · obtain ⟨k, t, hk, hcons⟩ := natDecChars_cons n.natAbs
              have hp := decDigitChar_notOther k hk
              have hdig := (decDigitChar_spec k hk).1
              have hsc : scanDigits (decDigitChar k :: (t ++ rest)) = .ok (n.natAbs, rest) := by
                rw [← List.cons_append, ← hcons]
                exact scanDigits_exact n.natAbs rest hb
              have hcast : ((n.natAbs : Nat) : Int) = n := by omega
              rw [show dumpsL (.num n) ++ rest = decDigitChar k :: (t ++ rest) from by
                simp [dumpsL, intChars, hn, hcons]]
              simp [loadsF, hp.1, hp.2.1, hp.2.2.1, hp.2.2.2.1, hp.2.2.2.2.1,
                hp.2.2.2.2.2.1, hp.2.2.2.2.2.2.1, hdig, hsc, hcast]
        | arr es =>
            cases es with
            | nil => simp [dumpsL, dumpsArr, loadsF, wsDrop_cons _ (by decide : pyIsSpace ']' = false)]
            | cons e es2 =>
                have hsz : jsonSizeArr (e :: es2) < f := by
                  simp [jsonSize] at hs; omega
                have harr := iha e es2 rest hsz
                obtain ⟨c, t, hj, hws, hbr, hbc, hcm⟩ := dumpsL_head e
                obtain ⟨Y, hY⟩ : ∃ Y, dumpsArr (e :: es2) = dumpsL e ++ Y := by
                  cases es2 with
                  | nil => exact ⟨[], by simp [dumpsArr]⟩
                  | cons e3 es3 => exact ⟨',' :: dumpsArr (e3 :: es3), by simp [dumpsArr]⟩
                have hXc : dumpsArr (e :: es2) ++ (']' :: rest) = c :: (t ++ Y ++ (']' :: rest)) := by
                  rw [hY, hj]; simp
                rw [show dumpsL (.arr (e :: es2)) ++ rest
                    = '[' :: (dumpsArr (e :: es2) ++ (']' :: rest)) from by simp [dumpsL],
                  loadsF_arr_step f _ c _ hXc hws hbr, harr]
        | obj ms =>
            cases ms with
            | nil => simp [dumpsL, dumpsObj, loadsF, wsDrop_cons _ (by decide : pyIsSpace '\x7d' = false)]
            | cons kv ms2 =>
                obtain ⟨k, v⟩ := kv
                have hsz : jsonSizeObj ((k, v) :: ms2) < f := by
                  simp [jsonSize] at hs; omega
                have hobj := iho k v ms2 rest hsz
                obtain ⟨Y, hY⟩ : ∃ Y, dumpsObj ((k, v) :: ms2) = '"' :: Y := by
                  cases ms2 with
                  | nil =>
                      exact ⟨jsonEscBody k.data ++ '"' :: ':' :: dumpsL v,
                        by simp [dumpsObj, jsonStrLit]⟩
                  | cons kv3 ms3 =>
                      exact ⟨jsonEscBody k.data ++ '"' :: ':' :: (dumpsL v
                        ++ ',' :: dumpsObj (kv3 :: ms3)), by simp [dumpsObj, jsonStrLit]⟩
                have hXc : dumpsObj ((k, v) :: ms2) ++ ('\x7d' :: rest)
                    = '"' :: (Y ++ ('\x7d' :: rest)) := by rw [hY]; simp
                rw [show dumpsL (.obj ((k, v) :: ms2)) ++ rest
                    = '\x7b' :: (dumpsObj ((k, v) :: ms2) ++ ('\x7d' :: rest)) from by simp [dumpsL],
                  loadsF_obj_step f _ '"' _ hXc (by decide) (by decide), hobj]
      · -- array items mode
        have hse : jsonSize e < f := by simp [jsonSizeArr] at hs; omega
        cases es with
        | nil =>
            have hv := ihv e (']' :: rest) hse rfl
            rw [show dumpsArr [e] ++ ']' :: rest = dumpsL e ++ (']' :: rest) from by
              simp [dumpsArr]]
            simp only [loadsF]
            rw [wsDrop_dumps e _, hv]
            simp [wsDrop_cons _ (by decide : pyIsSpace ']' = false)]
        | cons e2 es2 =>
            have hsz2 : jsonSizeArr (e2 :: es2) < f := by
              simp [jsonSizeArr] at hs ⊢; omega
            have hv := ihv e (',' :: (dumpsArr (e2 :: es2) ++ ']' :: rest)) hse rfl
            have harr := iha e2 es2 rest hsz2
            rw [show dumpsArr (e :: e2 :: es2) ++ ']' :: rest
                = dumpsL e ++ (',' :: (dumpsArr (e2 :: es2) ++ ']' :: rest)) from by
              simp [dumpsArr]]
            simp only [loadsF]
            rw [wsDrop_dumps e _, hv]
            simp [wsDrop_cons _ (by decide : pyIsSpace ',' = false), harr]
      · -- object members mode
        have hsv : jsonSize v < f := by simp [jsonSizeObj] at hs; omega
        have hkey : ∀ z, scanStringBody (jsonEscBody k.data ++ '"' :: z) = .ok (k.data, z) :=
          fun z => scanStringBody_esc k.data z
        cases ms with
        | nil =>
            have hv := ihv v ('\x7d' :: rest) hsv rfl
            rw [show dumpsObj [(k, v)] ++ '\x7d' :: rest
                = '"' :: (jsonEscBody k.data ++ '"' :: (':' :: (dumpsL v ++ ('\x7d' :: rest)))) from by
              simp [dumpsObj, jsonStrLit]]
            simp only [loadsF]
            simp only [wsDrop_cons _ (by decide : pyIsSpace '"' = false), hkey]
            simp only [wsDrop_cons _ (by decide : pyIsSpace ':' = false)]
            rw [wsDrop_dumps v _, hv]
            simp [wsDrop_cons _ (by decide : pyIsSpace '\x7d' = false)]
        | cons kv2 ms2 =>
            obtain ⟨k2, v2⟩ := kv2
            have hsz2 : jsonSizeObj ((k2, v2) :: ms2) < f := by
              simp [jsonSizeObj] at hs ⊢; omega
            have hobj := iho k2 v2 ms2 rest hsz2
            have hv := ihv v (',' :: (dumpsObj ((k2, v2) :: ms2) ++ '\x7d' :: rest)) hsv rfl
            rw [show dumpsObj ((k, v) :: (k2, v2) :: ms2) ++ '\x7d' :: rest
                = '"' :: (jsonEscBody k.data ++ '"' :: (':' :: (dumpsL v
                  ++ (',' :: (dumpsObj ((k2, v2) :: ms2) ++ '\x7d' :: rest))))) from by
              simp [dumpsObj, jsonStrLit]]
            rw [loadsF]
            simp only [wsDrop_cons _ (by decide : pyIsSpace '"' = false), hkey]
            simp only [wsDrop_cons _ (by decide : pyIsSpace ':' = false)]
            rw [wsDrop_dumps v _, hv]
            simp [wsDrop_cons _ (by decide : pyIsSpace ',' = false), hobj]

mutual
/-- `jsonSize` never exceeds the serialized length (fuel sufficiency). -/
theorem jsonSize_le_dumpsL : ∀ j : Json, jsonSize j ≤ (dumpsL j).length
  | .null => by simp [jsonSize, dumpsL]
  | .bool b => by cases b <;> simp [jsonSize, dumpsL]
  | .num n => by
      obtain ⟨k, t, hk, hcons⟩ := natDecChars_cons n.natAbs
      simp only [jsonSize, dumpsL, intChars]
      split_ifs <;> simp [hcons]
  | .str s => by simp [jsonSize, dumpsL, jsonStrLit]
  | .arr es => by
      have h := jsonSizeArr_le_dumpsArr es
      simp only [jsonSize, dumpsL, List.length_cons, List.length_append]
      omega
  | .obj ms => by
      have h := jsonSizeObj_le_dumpsObj ms
      simp only [jsonSize, dumpsL, List.length_cons, List.length_append]
      omega
theorem jsonSizeArr_le_dumpsArr : ∀ es : List Json, jsonSizeArr es ≤ (dumpsArr es).length + 1
  | [] => by simp [jsonSizeArr]
  | e :: es => by
      have h1 := jsonSize_le_dumpsL e
      have h2 := jsonSizeArr_le_dumpsArr es
      cases es with
      | nil => simp only [jsonSizeArr, dumpsArr, List.length_append]; simp at h2 ⊢; omega
      | cons e2 es2 =>
          simp only [jsonSizeArr, dumpsArr, List.length_append, List.length_cons] at h2 ⊢
          omega
theorem jsonSizeObj_le_dumpsObj :
    ∀ ms : List (String × Json), jsonSizeObj ms ≤ (dumpsObj ms).length + 1
  | [] => by simp [jsonSizeObj]
  | (k, v) :: ms => by
      have h1 := jsonSize_le_dumpsL v
      have h2 := jsonSizeObj_le_dumpsObj ms
      cases ms with
      | nil =>
          simp only [jsonSizeObj, dumpsObj, List.length_append, List.length_cons,
            jsonStrLit] at h2 ⊢
          omega
      | cons kv2 ms2 =>
          simp only [jsonSizeObj, dumpsObj, List.length_append, List.length_cons,
            jsonStrLit] at h2 ⊢
          omega
end

/-- The codec round-trip: parsing a serialized value recovers it exactly. -/
theorem loads_dumps (j : Json) : loads (dumps j) = .ok j := by
  have hsz : jsonSize j ≤ (dumpsL j).length := jsonSize_le_dumpsL j
  have hv := (loads_dumps_aux ((dumpsL j).length + 1)).1 j [] (by omega) (by decide)
  rw [List.append_nil] at hv
  show loadsL (dumpsL j) = .ok j
  unfold loadsL
  rw [show wsDrop (dumpsL j) = dumpsL j from by
    have := wsDrop_dumps j []
    simpa using this]
  rw [hv]
  simp [wsDrop]

/-! ## Strip lemmas for serialized output -/

/-- A list whose two ends are whitespace-free strips to itself. -/
theorem pyStrip_of_ends {l : List Char}
    (h1 : wsDrop l = l) (h2 : wsDrop l.reverse = l.reverse) : pyStrip l = l := by
  unfold pyStrip
  rw [h1]
  rw [show l.reverse.dropWhile pyIsSpace = wsDrop l.reverse from rfl, h2,
    List.reverse_reverse]

/-- Digit renderings end with a digit character. -/
theorem natDecChars_concat (n : Nat) :
    ∃ t k, k < 10 ∧ natDecChars n = t ++ [decDigitChar k] := by
  unfold natDecChars
  by_cases h : n < 10
  · exact ⟨[], n, h, by simp [natDecCharsAux, h]⟩
  · refine ⟨natDecCharsAux n (n / 10) [], n % 10, by omega, ?_⟩
    simp only [natDecCharsAux, if_neg h]
    rw [natDecCharsAux_acc]

/-- Every serialized value ends with a non-whitespace character. -/
theorem dumpsL_concat (j : Json) :
    ∃ t c, dumpsL j = t ++ [c] ∧ pyIsSpace c = false := by
  cases j with
  | null => exact ⟨['n', 'u', 'l'], 'l', rfl, by decide⟩
  | bool b =>
      cases b with
      | true => exact ⟨['t', 'r', 'u'], 'e', rfl, by decide⟩
      | false => exact ⟨['f', 'a', 'l', 's'], 'e', rfl, by decide⟩
  | str s => exact ⟨'"' :: jsonEscBody s.data, '"', by simp [dumpsL, jsonStrLit], by decide⟩
  | arr es => exact ⟨'[' :: dumpsArr es, ']', by simp [dumpsL], by decide⟩
  | obj ms => exact ⟨'\x7b' :: dumpsObj ms, '\x7d', by simp [dumpsL], by decide⟩
  | num n =>
      obtain ⟨t, k, hk, hcat⟩ := natDecChars_concat n.natAbs
      by_cases hn : n < 0
      · refine ⟨'-' :: t, decDigitChar k, by simp [dumpsL, intChars, hn, hcat], ?_⟩
        exact (decDigitChar_notOther k hk).2.2.2.2.2.2.2.1
      · refine ⟨t, decDigitChar k, by simp [dumpsL, intChars, hn, hcat], ?_⟩
        exact (decDigitChar_notOther k hk).2.2.2.2.2.2.2.1

/-- Serialized output strips to itself. -/
theorem pyStrip_dumpsL (j : Json) : pyStrip (dumpsL j) = dumpsL j := by
  obtain ⟨t, c, hcat, hws⟩ := dumpsL_concat j
  apply pyStrip_of_ends
  · have := wsDrop_dumps j []
    simpa using this
  · rw [hcat]
    simp only [List.reverse_append, List.reverse_cons, List.reverse_nil,
      List.nil_append, List.cons_append]
    exact wsDrop_cons _ hws

/-- Serialized output followed by a newline strips back to the output. -/
theorem pyStrip_dumpsL_newline (j : Json) : pyStrip (dumpsL j ++ ['\n']) = dumpsL j := by
  obtain ⟨c, t, hj, hws, _, _, _⟩ := dumpsL_head j
  obtain ⟨t2, c2, hcat, hws2⟩ := dumpsL_concat j
  unfold pyStrip
  rw [show wsDrop (dumpsL j ++ ['\n']) = dumpsL j ++ ['\n'] from wsDrop_dumps j ['\n']]
  rw [show (dumpsL j ++ ['\n']).reverse = '\n' :: (dumpsL j).reverse from by simp]
  rw [show List.dropWhile pyIsSpace ('\n' :: (dumpsL j).reverse)
      = List.dropWhile pyIsSpace (dumpsL j).reverse from by
    rw [List.dropWhile_cons, if_pos (by decide)]]
  rw [hcat]
  simp only [List.reverse_append, List.reverse_cons, List.reverse_nil,
    List.nil_append, List.cons_append]
  rw [show List.dropWhile pyIsSpace (c2 :: t2.reverse) = c2 :: t2.reverse from by
    simp [List.dropWhile_cons, hws2]]
  simp [hcat]

/-! ## The two extraction regular expressions

`fencedGroup` models `re.search(r'```(?:json)?\s*([\s\S]*?)```', content)`:
find the first <code>```</code>, optionally consume a literal `json` tag, consume
whitespace greedily (`\s*` never crosses a backtick), then capture lazily up
to the next <code>```</code>.  A match exists exactly when a second <code>```</code> follows the
remainder; trying later start positions can never succeed when the first one
fails, so first-occurrence search is faithful to `re.search`. -/
def fencedGroup (l : List Char) : Option (List Char) :=
  match splitFirst ['`', '`', '`'] l with
  | none => none
  | some (_, afterOpen) =>
    let afterTag :=
      if headMatches ['j', 's', 'o', 'n'] afterOpen then afterOpen.drop 4 else afterOpen
    match splitFirst ['`', '`', '`'] (wsDrop afterTag) with
    | none => none
    | some (inner, _) => some inner

/-- Model of `re.search(r'\{[\s\S]*\}', content)`: the greedy span from the
first `{` through the last `}`, provided some `}` follows the first `{`
(otherwise no later start position can match either). -/
def braceSpan (l : List Char) : Option (List Char) :=
  match splitFirst ['\x7b'] l with
  | none => none
  | some (_, afterBrace) =>
    match splitFirst ['\x7d'] afterBrace.reverse with
    | none => none
    | some (_, revBefore) => some ('\x7b' :: (revBefore.reverse ++ ['\x7d']))

/-! ## Response extraction

`extract_json_from_response` exists twice, in `course_service.py` (lines
127–144) and `slides_service.py` (lines 102–116), identical except for the
final `raise`: the course version wraps the *original* decode error's message
(`f"Failed to parse JSON from AI response: {str(e)}"`), the slides version
raises a fixed message with no original error.  In both, when the brace-span
parse itself fails, that second `json.loads` call's `JSONDecodeError`
propagates uncaught. -/

/-- The candidate string both extractors parse first: the first fenced block's
inner text if one exists, else the whole reply, stripped either way. -/
def extractionCandidate (content : String) : List Char :=
  match fencedGroup content.data with
  | some inner => pyStrip inner
  | none => pyStrip content.data

/-- The distinct failure outcomes of the two extractors. -/
inductive ExtractErr where
  | wrapped (orig : String)
  | failedFixed
  | decodeErr (msg : String)
deriving DecidableEq

/-- `course_service.extract_json_from_response`. -/
def extract_json_course (content : String) : Except ExtractErr Json :=
  match loadsL (extractionCandidate content) with
  | .ok j => .ok j
  | .error e1 =>
    match braceSpan content.data with
    | some span =>
      (match loadsL span with
       | .ok j => .ok j
       | .error e2 => .error (.decodeErr e2))
    | none => .error (.wrapped e1)

/-- `slides_service.extract_json_from_response`. -/
def extract_json_slides (content : String) : Except ExtractErr Json :=
  match loadsL (extractionCandidate content) with
  | .ok j => .ok j
  | .error _ =>
    match braceSpan content.data with
    | some span =>
      (match loadsL span with
       | .ok j => .ok j
       | .error e2 => .error (.decodeErr e2))
    | none => .error .failedFixed

/-- The inline parsing in `generate_exercises`, `generate_quiz` and
`enhance_slide` (content_enhancement_service.py): the same fenced-or-stripped
candidate, then one bare `json.loads` whose failure propagates — no brace-span
fallback. -/
def inline_parse (response : String) : Except String Json :=
  loadsL (extractionCandidate response)

/-! ## `course_service.py`: requests, gateway-call classification, pre-call phases -/

structure TitleGenerationRequest where
  title : String
  language : String := "sv"

structure OutlineGenerationRequest where
  title : String
  num_modules : Int := 5
  language : String := "sv"
  additional_context : Option String := none

structure ScriptGenerationRequest where
  module_title : String
  module_description : String
  course_title : String
  language : String := "sv"
  target_duration : Int := 10
  tone : String := "professional"
  additional_context : Option String := none

/-- The arguments `call_lovable_ai` is invoked with.  A pre-call phase that
returns one of these has reached the external invocation. -/
structure LovableInvoke where
  system_prompt : String
  user_prompt : String
  model : String := "google/gemini-2.5-flash"
  max_tokens : Int := 4000

/-- The distinct `raise` sites of `call_lovable_ai` (course_service.py 89–122):
missing key, HTTP 429, HTTP 402, any other non-success status, empty reply. -/
inductive LovableErr where
  | noKey
  | rateLimit
  | credits
  | gateway (status : Int) (body : String)
  | noContent
deriving DecidableEq

/-- The user-visible message each `raise` site carries. -/
def lovableErrMessage : LovableErr → String
  | .noKey => "LOVABLE_API_KEY not configured"
  | .rateLimit => "Rate limit exceeded. Please try again later."
  | .credits => "AI credits exhausted. Please add credits to continue."
  | .gateway status body => "AI Gateway error: " ++ toString status ++ " - " ++ body
  | .noContent => "No content in AI response"

/-- `call_lovable_ai`'s handling of the gateway response (lines 110–124):
httpx's `is_success` is `200 ≤ status ≤ 299`; a non-success status is
classified 429 → rate limit, 402 → credits, otherwise generic; a success
must carry nonempty message content. -/
def call_lovable_ai_outcome (status : Int) (body : String) (content : Option String) :
    Except LovableErr String :=
  if 200 ≤ status ∧ status ≤ 299 then
    match content with
    | some c => if c.isEmpty then .error .noContent else .ok c
    | none => .error .noContent
  else if status = 429 then .error .rateLimit
  else if status = 402 then .error .credits
  else .error (.gateway status body)

/-- `context_text` as computed in `generate_outline`/`generate_script`: the
empty string when `additional_context` is `None` or falsy. -/
def contextText (c : Option String) : String :=
  match c with
  | some s => if s.isEmpty then "" else "\n\nAdditional context: " ++ s
  | none => ""

/-- `generate_titles`' Swedish system prompt (course_service.py 157–170). -/
def titlesSystemPromptSv : String :=
  "Du är en expert på att skapa engagerande kurstitlar för vårdutbildning. "
  ++ "Generera exakt 5 alternativa kurstitlar baserade på användarens input. "
  ++ "Varje titel ska vara professionell, tydlig och attraktiv för vårdpersonal. "
  ++ "Svara ENDAST med giltig JSON i detta format:\n"
  ++ "\x7b\n"
  ++ "  \"suggestions\": [\n"
  ++ "    \x7b\"id\": \"1\", \"title\": \"Titel här\", \"explanation\": \"Kort förklaring varför denna titel fungerar bra\"\x7d,\n"
  ++ "    \x7b\"id\": \"2\", \"title\": \"Titel här\", \"explanation\": \"Kort förklaring\"\x7d,\n"
  ++ "    \x7b\"id\": \"3\", \"title\": \"Titel här\", \"explanation\": \"Kort förklaring\"\x7d,\n"
  ++ "    \x7b\"id\": \"4\", \"title\": \"Titel här\", \"explanation\": \"Kort förklaring\"\x7d,\n"
  ++ "    \x7b\"id\": \"5\", \"title\": \"Titel här\", \"explanation\": \"Kort förklaring\"\x7d\n"
  ++ "  ]\n"
  ++ "\x7d"

/-- `generate_titles`' English system prompt (course_service.py 171–185). -/
def titlesSystemPromptEn : String :=
  "You are an expert at creating engaging course titles for healthcare education. "
  ++ "Generate exactly 5 alternative course titles based on the user's input. "
  ++ "Each title should be professional, clear, and appealing to healthcare professionals. "
  ++ "Respond ONLY with valid JSON in this format:\n"
  ++ "\x7b\n"
  ++ "  \"suggestions\": [\n"
  ++ "    \x7b\"id\": \"1\", \"title\": \"Title here\", \"explanation\": \"Brief explanation of why this title works well\"\x7d,\n"
  ++ "    \x7b\"id\": \"2\", \"title\": \"Title here\", \"explanation\": \"Brief explanation\"\x7d,\n"
  ++ "    \x7b\"id\": \"3\", \"title\": \"Title here\", \"explanation\": \"Brief explanation\"\x7d,\n"
  ++ "    \x7b\"id\": \"4\", \"title\": \"Title here\", \"explanation\": \"Brief explanation\"\x7d,\n"
  ++ "    \x7b\"id\": \"5\", \"title\": \"Title here\", \"explanation\": \"Brief explanation\"\x7d\n"
  ++ "  ]\n"
  ++ "\x7d"

/-- The phase of `generate_titles` (lines 151–189) before the external call:
validate the title, assemble the prompts, invoke.  The returned
`LovableInvoke` marks the point where `call_lovable_ai` is awaited. -/
def generate_titles_preCall (r : TitleGenerationRequest) : Except String LovableInvoke :=
  if r.title.isEmpty || (pyStripS r.title).isEmpty then
    .error "Course title is required"
  else
    .ok { system_prompt := if r.language = "sv" then titlesSystemPromptSv else titlesSystemPromptEn
          user_prompt := "Original course title/topic: \"" ++ r.title ++ "\"" }

/-- `generate_outline`'s Swedish system prompt (course_service.py 207–227). -/
def outlineSystemPromptSv (num_modules : Int) : String :=
  "Du är en expert på att strukturera vårdutbildningar. "
  ++ "Skapa en kursöversikt med exakt " ++ toString num_modules ++ " moduler. "
  ++ "Varje modul ska ha:\n"
  ++ "- Ett beskrivande titel\n"
  ++ "- En detaljerad beskrivning\n"
  ++ "- Uppskattat antal minuter\n"
  ++ "- 3-5 nyckelämnen som ska täckas\n\n"
  ++ "Svara ENDAST med giltig JSON i detta format:\n"
  ++ "\x7b\n"
  ++ "  \"modules\": [\n"
  ++ "    \x7b\n"
  ++ "      \"id\": \"module-1\",\n"
  ++ "      \"title\": \"Modul titel\",\n"
  ++ "      \"description\": \"Detaljerad beskrivning av modulen\",\n"
  ++ "      \"estimated_duration\": 15,\n"
  ++ "      \"key_topics\": [\"Ämne 1\", \"Ämne 2\", \"Ämne 3\"]\n"
  ++ "    \x7d\n"
  ++ "  ],\n"
  ++ "  \"total_duration\": 75\n"
  ++ "\x7d"

/-- `generate_outline`'s English system prompt (course_service.py 229–248). -/
def outlineSystemPromptEn (num_modules : Int) : String :=
  "You are an expert at structuring healthcare education. "
  ++ "Create a course outline with exactly " ++ toString num_modules ++ " modules. "
  ++ "Each module should have:\n"
  ++ "- A descriptive title\n"
  ++ "- A detailed description\n"
  ++ "- Estimated duration in minutes\n"
  ++ "- 3-5 key topics to be covered\n\n"
  ++ "Respond ONLY with valid JSON in this format:\n"
  ++ "\x7b\n"
  ++ "  \"modules\": [\n"
  ++ "    \x7b\n"
  ++ "      \"id\": \"module-1\",\n"
  ++ "      \"title\": \"Module title\",\n"
  ++ "      \"description\": \"Detailed description of the module\",\n"
  ++ "      \"estimated_duration\": 15,\n"
  ++ "      \"key_topics\": [\"Topic 1\", \"Topic 2\", \"Topic 3\"]\n"
  ++ "    \x7d\n"
  ++ "  ],\n"
  ++ "  \"total_duration\": 75\n"
  ++ "\x7d"

/-- The phase of `generate_outline` (lines 199–253) before the external call.
Only the title is validated; `num_modules` is interpolated into the prompt
without any check. -/
def generate_outline_preCall (r : OutlineGenerationRequest) : Except String LovableInvoke :=
  if r.title.isEmpty || (pyStripS r.title).isEmpty then
    .error "Course title is required"
  else
    .ok { system_prompt :=
            if r.language = "sv" then outlineSystemPromptSv r.num_modules
            else outlineSystemPromptEn r.num_modules
          user_prompt := "Course title: \"" ++ r.title ++ "\"" ++ contextText r.additional_context
          max_tokens := 6000 }

/-- `generate_script`'s Swedish system prompt (course_service.py 271–295). -/
def scriptSystemPromptSv (target_duration : Int) (tone : String) : String :=
  "Du är en expert på att skriva pedagogiska manus för vårdutbildningar. "
  ++ "Skapa ett detaljerat manus för en modul som ska ta cirka " ++ toString target_duration
  ++ " minuter. "
  ++ "Manuset ska vara:\n"
  ++ "- Professionellt och engagerande\n"
  ++ "- I " ++ tone ++ " ton\n"
  ++ "- Strukturerat i logiska sektioner (3-5 sektioner)\n"
  ++ "- Med tydliga övergångar mellan sektioner\n"
  ++ "- Inkludera slide markers (naturliga brytpunkter för slides)\n\n"
  ++ "Svara ENDAST med giltig JSON i detta format:\n"
  ++ "\x7b\n"
  ++ "  \"module_id\": \"module-1\",\n"
  ++ "  \"module_title\": \"Modulens titel\",\n"
  ++ "  \"sections\": [\n"
  ++ "    \x7b\n"
  ++ "      \"id\": \"section-1\",\n"
  ++ "      \"title\": \"Sektion titel\",\n"
  ++ "      \"content\": \"Fullständigt manus för denna sektion...\",\n"
  ++ "      \"slide_markers\": [\"Key Point 1\", \"Key Point 2\"]\n"
  ++ "    \x7d\n"
  ++ "  ],\n"
  ++ "  \"total_words\": 1500,\n"
  ++ "  \"estimated_duration\": 10,\n"
  ++ "  \"citations\": [\"Källa 1\", \"Källa 2\"]\n"
  ++ "\x7d"

/-- `generate_script`'s English system prompt (course_service.py 296–321). -/
def scriptSystemPromptEn (target_duration : Int) (tone : String) : String :=
  "You are an expert at writing educational scripts for healthcare education. "
  ++ "Create a detailed script for a module that should take approximately "
  ++ toString target_duration ++ " minutes. "
  ++ "The script should be:\n"
  ++ "- Professional and engaging\n"
  ++ "- In " ++ tone ++ " tone\n"
  ++ "- Structured in logical sections (3-5 sections)\n"
  ++ "- With clear transitions between sections\n"
  ++ "- Include slide markers (natural breakpoints for slides)\n\n"
  ++ "Respond ONLY with valid JSON in this format:\n"
  ++ "\x7b\n"
  ++ "  \"module_id\": \"module-1\",\n"
  ++ "  \"module_title\": \"Module title\",\n"
  ++ "  \"sections\": [\n"
  ++ "    \x7b\n"
  ++ "      \"id\": \"section-1\",\n"
  ++ "      \"title\": \"Section title\",\n"
  ++ "      \"content\": \"Complete script for this section...\",\n"
  ++ "      \"slide_markers\": [\"Key Point 1\", \"Key Point 2\"]\n"
  ++ "    \x7d\n"
  ++ "  ],\n"
  ++ "  \"total_words\": 1500,\n"
  ++ "  \"estimated_duration\": 10,\n"
  ++ "  \"citations\": [\"Source 1\", \"Source 2\"]\n"
  ++ "\x7d"

/-- The phase of `generate_script` (lines 263–329) before the external call.
Only the module title is validated. -/
def generate_script_preCall (r : ScriptGenerationRequest) : Except String LovableInvoke :=
  if r.module_title.isEmpty || (pyStripS r.module_title).isEmpty then
    .error "Module title is required"
  else
    .ok { system_prompt :=
            if r.language = "sv" then scriptSystemPromptSv r.target_duration r.tone
            else scriptSystemPromptEn r.target_duration r.tone
          user_prompt :=
            "Module title: \"" ++ r.module_title ++ "\"\n"
            ++ "Module description: " ++ r.module_description ++ "\n"
            ++ "Course: \"" ++ r.course_title ++ "\"" ++ contextText r.additional_context
          max_tokens := 8000 }

/-- The error type of the script pipeline after validation: collaborator-call
failure or response-parse failure. -/
inductive ScriptPipelineErr where
  | call (e : LovableErr)
  | parse (e : ExtractErr)
deriving DecidableEq

/-- `generate_script` after validation: await `call_lovable_ai`, then
`extract_json_from_response`; both failure kinds propagate uncaught (there is
no retry and no handler in course_service.py). -/
def generate_script_pipeline (status : Int) (body : String) (content : Option String) :
    Except ScriptPipelineErr Json :=
  match call_lovable_ai_outcome status body content with
  | .error e => .error (.call e)
  | .ok reply =>
    match extract_json_course reply with
    | .ok j => .ok j
    | .error e => .error (.parse e)

/-! ## `content_enhancement_service.py`: exercises and quiz -/

structure ExerciseGenerationRequest where
  module_title : String
  module_content : String
  course_title : String
  num_exercises : Int := 3
  difficulty : String := "medium"
  language : String := "sv"

structure QuizGenerationRequest where
  module_title : String
  module_content : String
  course_title : String
  num_questions : Int := 5
  include_multiple_choice : Bool := true
  include_true_false : Bool := true
  language : String := "sv"

/-- The arguments the Emergent chat collaborator is invoked with
(`LlmChat(...).send_message`).  Returning one of these marks the external
call. -/
structure EmergentInvoke where
  session_id : String
  system_message : String
  user_text : String

/-- `generate_exercises`' Swedish system prompt (content_enhancement 50–68). -/
def exercisesSystemPromptSv (num_exercises : Int) (difficulty : String) : String :=
  "Du är en expert på att skapa pedagogiska övningar för vårdutbildningar. "
  ++ "Skapa exakt " ++ toString num_exercises ++ " övningar baserade på modulinnehållet. "
  ++ "Svårighetsgrad: " ++ difficulty ++ ". "
  ++ "Svara ENDAST med giltig JSON i detta format:\n"
  ++ "\x7b\n"
  ++ "  \"exercises\": [\n"
  ++ "    \x7b\n"
  ++ "      \"id\": \"ex-1\",\n"
  ++ "      \"type\": \"multiple_choice\",\n"
  ++ "      \"question\": \"Fråga här\",\n"
  ++ "      \"options\": [\"Alt 1\", \"Alt 2\", \"Alt 3\", \"Alt 4\"],\n"
  ++ "      \"correct_answer\": \"Alt 1\",\n"
  ++ "      \"explanation\": \"Förklaring till rätt svar\",\n"
  ++ "      \"points\": 10\n"
  ++ "    \x7d\n"
  ++ "  ],\n"
  ++ "  \"total_points\": 30\n"
  ++ "\x7d"

/-- `generate_exercises`' (abbreviated, as in the source) English prompt
(content_enhancement 70–73). -/
def exercisesSystemPromptEn (num_exercises : Int) (difficulty : String) : String :=
  "You are an expert at creating educational exercises for healthcare education. "
  ++ "Create exactly " ++ toString num_exercises ++ " exercises based on the module content. "
  ++ "Difficulty level: " ++ difficulty ++ ". "
  ++ "Respond ONLY with valid JSON in this format..."

/-- The phase of `generate_exercises` (lines 44–88) before the external call.
Beyond the configured-key check there is no request validation at all: no
field emptiness check and no bound on `num_exercises`.  The module content is
truncated to 3000 characters by slicing, with nothing else added. -/
def generate_exercises_preCall (emergentKey : String) (r : ExerciseGenerationRequest) :
    Except String EmergentInvoke :=
  if emergentKey.isEmpty then .error "EMERGENT_LLM_KEY not configured"
  else
    .ok { session_id := "exercise-gen-" ++ pyTake 20 r.module_title
          system_message :=
            if r.language = "sv" then exercisesSystemPromptSv r.num_exercises r.difficulty
            else exercisesSystemPromptEn r.num_exercises r.difficulty
          user_text :=
            "Module: \"" ++ r.module_title ++ "\"\n"
            ++ "Course: \"" ++ r.course_title ++ "\"\n\n"
            ++ "Content:\n" ++ pyTake 3000 r.module_content }

/-- `generate_quiz`'s Swedish system prompt (content_enhancement 139–160). -/
def quizSystemPromptSv (num_questions : Int) : String :=
  "Du är en expert på att skapa pedagogiska kunskapstester för vårdutbildningar. "
  ++ "Skapa exakt " ++ toString num_questions ++ " quizfrågor baserade på modulinnehållet. "
  ++ "Variera svårighetsgrad och frågetyper. "
  ++ "Svara ENDAST med giltig JSON i detta format:\n"
  ++ "\x7b\n"
  ++ "  \"quiz_title\": \"Quiz titel\",\n"
  ++ "  \"questions\": [\n"
  ++ "    \x7b\n"
  ++ "      \"id\": \"q-1\",\n"
  ++ "      \"type\": \"multiple_choice\",\n"
  ++ "      \"question\": \"Fråga här\",\n"
  ++ "      \"options\": [\"Alt 1\", \"Alt 2\", \"Alt 3\", \"Alt 4\"],\n"
  ++ "      \"correct_answer\": \"Alt 1\",\n"
  ++ "      \"explanation\": \"Förklaring\",\n"
  ++ "      \"points\": 10,\n"
  ++ "      \"difficulty\": \"medium\"\n"
  ++ "    \x7d\n"
  ++ "  ],\n"
  ++ "  \"total_points\": 50,\n"
  ++ "  \"passing_score\": 35\n"
  ++ "\x7d"

/-- `generate_quiz`'s (abbreviated, as in the source) English prompt
(content_enhancement 161–163). -/
def quizSystemPromptEn : String :=
  "You are an expert at creating educational quizzes for healthcare education..."

/-- The phase of `generate_quiz` (lines 133–177) before the external call.
As with exercises: no request-field validation, no bound on `num_questions`;
module content truncated to 3000 characters with nothing inserted. -/
def generate_quiz_preCall (emergentKey : String) (r : QuizGenerationRequest) :
    Except String EmergentInvoke :=
  if emergentKey.isEmpty then .error "EMERGENT_LLM_KEY not configured"
  else
    .ok { session_id := "quiz-gen-" ++ pyTake 20 r.module_title
          system_message :=
            if r.language = "sv" then quizSystemPromptSv r.num_questions
            else quizSystemPromptEn
          user_text :=
            "Module: \"" ++ r.module_title ++ "\"\n"
            ++ "Course: \"" ++ r.course_title ++ "\"\n\n"
            ++ "Content:\n" ++ pyTake 3000 r.module_content }

/-- `generate_quiz` after the reply arrives (lines 179–187): the inline
fenced-or-stripped parse; a `json.JSONDecodeError` propagates, there is no
brace-span fallback and no error handler. -/
def generate_quiz_parse (response : String) : Except String Json :=
  inline_parse response

/-- `generate_exercises` after the reply arrives (lines 90–98): identical
inline parse. -/
def generate_exercises_parse (response : String) : Except String Json :=
  inline_parse response

/-! ## `slides_service.py`: the slide-generation feature

Three phases of `generate_slides` are embedded: the validation (lines
434–435), the user prompt with its 6000-character ceiling (lines 564–584),
and the response mapping loop (lines 594–661).  The system prompt (lines
437–562) concatenates the static guidance tables; no claim under study
depends on its text, so it is not transcribed. -/

/-- The distinct failure outcomes of `call_ai` (slides_service.py 68–99). -/
inductive CallAiErr where
  | noKey
  | rateLimit
  | credits
  | generic (msg : String)
deriving DecidableEq

/-- `call_ai`'s exception classification (lines 93–99): any exception text
containing `429` or (lower-cased) `rate limit` becomes the rate-limit
message, else `402`/`credit` the credits message, else a generic wrapper. -/
def classify_ai_error (error_msg : String) : CallAiErr :=
  if pyContains error_msg "429" || pyContains (pyLower error_msg) "rate limit" then
    .rateLimit
  else if pyContains error_msg "402" || pyContains (pyLower error_msg) "credit" then
    .credits
  else .generic ("AI error: " ++ error_msg)

/-- The message each outcome raises. -/
def callAiErrMessage : CallAiErr → String
  | .noKey => "EMERGENT_LLM_KEY not configured"
  | .rateLimit => "Rate limit exceeded. Please try again later."
  | .credits => "AI credits exhausted. Please add credits to continue."
  | .generic msg => msg

/-- `call_ai`'s handling of the collaborator's result (lines 78–99): an empty
reply raises inside the `try`, so it too passes through the classifier; a
collaborator exception is classified by its message. -/
def call_ai_outcome (sendResult : Except String String) : Except CallAiErr String :=
  match sendResult with
  | .ok response =>
      if response.isEmpty then .error (classify_ai_error "No content in AI response")
      else .ok response
  | .error msg => .error (classify_ai_error msg)

structure SlideGenerationRequest where
  script_content : String
  module_title : String
  course_title : String
  num_slides : Int := 10
  language : String := "sv"
  tone : String := "professional"
  verbosity : String := "standard"
  include_title_slide : Bool := true
  include_table_of_contents : Bool := false
  industry : Option String := none
  audience_type : Option String := some "general"
  presentation_goal : Option String := none

/-- The validation `generate_slides` performs before anything else
(lines 434–435): only the script content is checked. -/
def generate_slides_validate (r : SlideGenerationRequest) : Except String Unit :=
  if r.script_content.isEmpty || (pyStripS r.script_content).isEmpty then
    .error "Script content is required"
  else .ok ()

/-- `audience_context` (line 565; the Swedish label is used for both
languages, as in the source). -/
def slidesAudienceContext (audience_type : Option String) : String :=
  match audience_type with
  | some a => if a.isEmpty then "" else "\nMÅLGRUPP: " ++ a
  | none => ""

/-- `industry_context` (line 566). -/
def slidesIndustryContext (industry : Option String) : String :=
  match industry with
  | some a => if a.isEmpty then "" else "\nBRANSCH: " ++ a
  | none => ""

/-- The user prompt of `generate_slides` (lines 568–584): the script content
is sliced to 6000 characters; nothing marks whether slicing shortened it. -/
def slidesUserPrompt (r : SlideGenerationRequest) : String :=
  let audience_context := slidesAudienceContext r.audience_type
  let industry_context := slidesIndustryContext r.industry
  if r.language = "sv" then
    "Skapa en professionell presentation baserad på följande:\n\n"
    ++ "KURS: \"" ++ r.course_title ++ "\"\n"
    ++ "MODUL: \"" ++ r.module_title ++ "\"" ++ audience_context ++ industry_context
    ++ "\n\nMANUSINNEHÅLL:\n" ++ pyTake 6000 r.script_content
    ++ "\n\nGenerera " ++ toString r.num_slides
    ++ " slides med varierande layouts och starka visuella förslag."
  else
    "Create a professional presentation based on the following:\n\n"
    ++ "COURSE: \"" ++ r.course_title ++ "\"\n"
    ++ "MODULE: \"" ++ r.module_title ++ "\"" ++ audience_context ++ industry_context
    ++ "\n\nSCRIPT CONTENT:\n" ++ pyTake 6000 r.script_content
    ++ "\n\nGenerate " ++ toString r.num_slides
    ++ " slides with varied layouts and strong visual suggestions."

/-! ### Python value helpers for the response mapping -/

mutual
/-- Model of Python `repr()` on parsed JSON values (string quoting
approximated with plain single quotes). -/
def pyRepr : Json → String
  | .null => "None"
  | .bool true => "True"
  | .bool false => "False"
  | .num n => toString n
  | .str s => "'" ++ s ++ "'"
  | .arr elems => "[" ++ pyReprArr elems ++ "]"
  | .obj members => "\x7b" ++ pyReprObj members ++ "\x7d"
def pyReprArr : List Json → String
  | [] => ""
  | x :: xs => pyRepr x ++ (match xs with | [] => "" | _ :: _ => ", " ++ pyReprArr xs)
def pyReprObj : List (String × Json) → String
  | [] => ""
  | (k, v) :: ms =>
    "'" ++ k ++ "': " ++ pyRepr v ++ (match ms with | [] => "" | _ :: _ => ", " ++ pyReprObj ms)
end

/-- Model of Python `str()` on parsed JSON values. -/
def pyStr (j : Json) : String :=
  match j with
  | .str s => s
  | _ => pyRepr j

/-- Python truthiness of parsed JSON values. -/
def pyFalsy : Json → Bool
  | .null => true
  | .bool b => !b
  | .num n => n == 0
  | .str s => s.isEmpty
  | .arr elems => elems.isEmpty
  | .obj members => members.isEmpty

/-- Dict lookup on a parsed object: the last binding of a key wins, as in the
dict `json.loads` builds. -/
def objGet (members : List (String × Json)) (key : String) : Option Json :=
  match members with
  | [] => none
  | (k, v) :: rest =>
    match objGet rest key with
    | some v2 => some v2
    | none => if k = key then some v else none

/-- `value.get(key)` (None for a missing key). -/
def jsonGet (j : Json) (key : String) : Option Json :=
  match j with
  | .obj members => objGet members key
  | _ => none

/-- `value.get(key) or default`: Python's `or` replaces any falsy value. -/
def pyGetOr (j : Json) (key : String) (dflt : Json) : Json :=
  match jsonGet j key with
  | some v => if pyFalsy v then dflt else v
  | none => dflt

/-- `value.get(key, default)`: the default applies only to a missing key. -/
def pyGetD (j : Json) (key : String) (dflt : Json) : Json :=
  match jsonGet j key with
  | some v => v
  | none => dflt

/-! ### The response mapping loop (lines 594–661) -/

/-- The `content` field normalization (lines 599–609 and the final
`str(content)` on line 639): a list is newline-joined (each item through
`str`), a mapping becomes `key: value` lines where a list value is itself
newline-joined first, anything else goes through `str`; a falsy or missing
field is the empty string. -/
def slideContentField (sd : Json) : String :=
  match pyGetOr sd "content" (.str "") with
  | .arr elems => String.intercalate "\n" (elems.map pyStr)
  | .obj members =>
    String.intercalate "\n" (members.map (fun kv =>
      match kv.2 with
      | .arr elems2 => kv.1 ++ ": " ++ String.intercalate "\n" (elems2.map pyStr)
      | _ => kv.1 ++ ": " ++ pyStr kv.2))
  | other => pyStr other

/-- The `speaker_notes` normalization (lines 612–616, 642): as for content
but mapping values are interpolated directly, without the inner list join. -/
def slideSpeakerNotesField (sd : Json) : String :=
  match pyGetOr sd "speaker_notes" (.str "") with
  | .arr elems => String.intercalate "\n" (elems.map pyStr)
  | .obj members =>
    String.intercalate "\n" (members.map (fun kv => kv.1 ++ ": " ++ pyStr kv.2))
  | other => pyStr other

/-- The `bullet_points` normalization (lines 619–623): a truthy list keeps its
truthy items as strings; anything else becomes `None`. -/
def slideBulletPoints (sd : Json) : Option (List String) :=
  match jsonGet sd "bullet_points" with
  | some (.arr elems) =>
    if elems.isEmpty then none
    else some ((elems.filter (fun bp => !pyFalsy bp)).map pyStr)
  | _ => none

/-- The fixed alternatives list of line 629. -/
def alternativeLayoutNames : List String :=
  ["title-content", "bullet-points", "two-column", "image-focus",
   "data-visualization", "quote"]

/-- The layout-variety step (lines 625–633): default the layout, and when it
repeats the previous slide's layout (beyond the first slide), replace it with
`alternatives[i % len(alternatives)]` where the alternatives exclude the
repeated value. -/
def slideLayoutChoice (sd : Json) (i : Nat) (prev : Option Json) : Json :=
  let layout := pyGetOr sd "layout" (.str "title-content")
  if (match prev with | some p => layout == p | none => false) && decide (0 < i) then
    match alternativeLayoutNames.filter (fun l => !(Json.str l == layout)) with
    | [] => layout
    | a :: rest =>
      .str ((a :: rest).get ⟨i % (a :: rest).length, Nat.mod_lt _ (Nat.succ_pos _)⟩)
  else layout

/-- One mapped slide (the `SlideContent(...)` construction, lines 635–652).
Fields the source passes through untyped are kept as raw JSON values. -/
structure SlideContent where
  slide_number : Json
  title : Json
  subtitle : Option Json
  content : String
  bullet_points : Option (List String)
  key_takeaway : Option Json
  speaker_notes : String
  layout : Json
  suggested_image_query : Json
  suggested_icon : Option Json
  visual_type : Option Json
  color_accent : Option Json
  transition_hint : Option Json
  image_url : Option Json
  image_source : Option Json
  image_attribution : Option Json

/-- Build one `SlideContent` from a slide dict, its index and its final
layout. -/
def mapSlide (sd : Json) (i : Nat) (layout : Json) : SlideContent :=
  { slide_number := pyGetD sd "slide_number" (.num (i + 1))
    title := pyGetOr sd "title" (.str "Untitled")
    subtitle := jsonGet sd "subtitle"
    content := slideContentField sd
    bullet_points := slideBulletPoints sd
    key_takeaway := jsonGet sd "key_takeaway"
    speaker_notes := slideSpeakerNotesField sd
    layout := layout
    suggested_image_query := pyGetOr sd "suggested_image_query" (.str "")
    suggested_icon := jsonGet sd "suggested_icon"
    visual_type := jsonGet sd "visual_type"
    color_accent := jsonGet sd "color_accent"
    transition_hint := jsonGet sd "transition_hint"
    image_url := jsonGet sd "image_url"
    image_source := jsonGet sd "image_source"
    image_attribution := jsonGet sd "image_attribution" }

/-- The `for i, slide_data in enumerate(...)` loop with its `prev_layout`
state.  A non-dict slide entry makes `.get` raise, which the source does not
catch. -/
def mapSlidesLoop : List Json → Nat → Option Json → Except String (List SlideContent)
  | [], _, _ => .ok []
  | sd :: rest, i, prev =>
    match sd with
    | .obj _ =>
      let layout := slideLayoutChoice sd i prev
      (match mapSlidesLoop rest (i + 1) (some layout) with
       | .ok slides => .ok (mapSlide sd i layout :: slides)
       | .error e => .error e)
    | _ => .error "AttributeError: not a dict"

/-- The slide list of the response: `data.get("slides", [])` looped as above
(line 598). -/
def generate_slides_mapSlides (data : Json) : Except String (List SlideContent) :=
  match data with
  | .obj _ =>
    (match jsonGet data "slides" with
     | some (.arr elems) => mapSlidesLoop elems 0 none
     | none => .ok []
     | some _ => .error "TypeError: not iterable")
  | _ => .error "AttributeError: not a dict"

/-! ## `ai_utils_service.py`: structure/manuscript analysis fallbacks -/

/-- The brace-scan-with-fallback parse shared by `analyze_course_structure`
(lines 167–179) and `analyze_manuscript` (lines 244–256): look only for a
greedy brace span; the bare `except: pass` swallows a decode failure and a
missing span falls through, both landing on the feature's fixed fallback. -/
def braceScanWithFallback (reply : String) (fallback : Json) : Json :=
  match braceSpan reply.data with
  | some span =>
    (match loadsL span with
     | .ok j => j
     | .error _ => fallback)
  | none => fallback

/-- The fixed fallback of `analyze_course_structure` (lines 174–179). -/
def analyzeStructureFallback : Json :=
  .obj [("recommended_modules", .num 5),
        ("recommended_duration", .num 60),
        ("complexity", .str "intermediate"),
        ("suggestions", .arr [.str "Could not analyze structure"])]

/-- `analyze_course_structure`'s reply handling. -/
def analyze_course_structure_result (reply : String) : Json :=
  braceScanWithFallback reply analyzeStructureFallback

/-- The fixed fallback of `analyze_manuscript` (lines 251–256). -/
def analyzeManuscriptFallback : Json :=
  .obj [("title", .str "Untitled Course"),
        ("summary", .str "Could not analyze manuscript"),
        ("key_topics", .arr []),
        ("suggested_modules", .arr [])]

/-- `analyze_manuscript`'s reply handling. -/
def analyze_manuscript_result (reply : String) : Json :=
  braceScanWithFallback reply analyzeManuscriptFallback

/-- `analyze_manuscript`'s user message (line 235): the manuscript sliced to
10000 characters; nothing marks truncation. -/
def analyze_manuscript_userContent (content : String) : String :=
  pyTake 10000 content

/-! ## `presenton_service.py`: `detect_content_type` and `analyze_topic_context` -/

/-- Any of the keywords occurs as a substring (`word in combined`). -/
def anyWordIn (combined : String) (ws : List String) : Bool :=
  ws.any (fun w => pyContains combined w)

def tutorialWords : List String :=
  ["tutorial", "guide", "how to", "step by step", "walkthrough", "instructions"]
def comparisonTypeWords : List String :=
  ["compare", "versus", "vs.", "differences", "advantages", "disadvantages", "contrast"]
def pitchTypeWords : List String :=
  ["pitch", "proposal", "investment", "funding", "venture", "startup"]
def reportTypeWords : List String :=
  ["report", "research", "findings", "data", "study", "analysis", "results"]
def trainingTypeWords : List String :=
  ["training", "course", "lesson", "workshop", "seminar", "education"]
def timelineTypeWords : List String :=
  ["timeline", "history", "evolution", "roadmap", "milestones"]
def caseStudyTypeWords : List String :=
  ["case study", "success story", "customer story", "testimonial"]

/-- The lower-cased combination `detect_content_type` scans (line 34). -/
def detectCombined (topic context : String) : String :=
  pyLower (topic ++ " " ++ context)

/-- `detect_content_type` (presenton_service.py 32–51): ordered keyword-group
matching on the lower-cased `f"{topic} {context}"`, defaulting to
`"general"`. -/
def detect_content_type (topic context : String) : String :=
  let combined := detectCombined topic context
  if anyWordIn combined tutorialWords then "tutorial"
  else if anyWordIn combined comparisonTypeWords then "comparison"
  else if anyWordIn combined pitchTypeWords then "pitch"
  else if anyWordIn combined reportTypeWords then "report"
  else if anyWordIn combined trainingTypeWords then "training"
  else if anyWordIn combined timelineTypeWords then "timeline"
  else if anyWordIn combined caseStudyTypeWords then "case-study"
  else "general"

def healthcareWords : List String :=
  ["health", "medical", "hospital", "pharma", "patient", "doctor", "clinic", "treatment"]
def financeWords : List String :=
  ["financ", "bank", "invest", "money", "stock", "crypto", "trading", "budget"]
def technologyWords : List String :=
  ["tech", "software", "digital", "ai", "machine learning", "data", "cloud", "app"]
def educationWords : List String :=
  ["education", "school", "learn", "student", "teach", "course", "training"]
def marketingWords : List String :=
  ["market", "brand", "customer", "sales", "advertis", "campaign", "promotion"]
def environmentWords : List String :=
  ["nature", "environment", "sustain", "green", "eco", "climate", "conservation"]
def diagramWords : List String :=
  ["diagram", "process", "workflow", "system", "architecture"]
def inspiringWords : List String :=
  ["inspire", "motivat", "empower", "success", "achievement"]
def seriousWords : List String :=
  ["serious", "important", "critical", "urgent"]
def energeticWords : List String :=
  ["fun", "creative", "innovate", "exciting", "dynamic"]
def comparisonStructureWords : List String :=
  ["compare", "versus", "vs.", "advantages", "alternative"]
def processStructureWords : List String :=
  ["step", "guide", "tutorial", "how to", "process", "workflow"]
def researchStructureWords : List String :=
  ["research", "study", "finding", "analysis", "data", "report"]
def pitchStructureWords : List String :=
  ["pitch", "proposal", "business plan", "investment"]
def narrativeStructureWords : List String :=
  ["story", "journey", "case study", "experience"]
def executiveWords : List String :=
  ["executive", "c-level", "board", "leadership", "strategic"]
def technicalWords : List String :=
  ["technical", "engineer", "developer", "architect"]
def beginnerWords : List String :=
  ["beginner", "introduction", "basics", "fundamentals", "101"]
def advancedWords : List String :=
  ["advanced", "expert", "deep dive", "comprehensive"]

/-- The record `analyze_topic_context` returns (presenton_service.py
126–133). -/
structure TopicAnalysis where
  industry : String
  image_style : String
  color_scheme : String
  mood : String
  presentation_structure : String
  audience_level : String
deriving DecidableEq

/-- `analyze_topic_context` (presenton_service.py 54–133): keyword-group
chains per dimension over the lower-cased `f"{topic} {additional_context or
''}"`, with the defaults `general` / `photography` / `professional-blue` /
`confident` / `standard` / `general`. -/
def analyzeCombined (topic : String) (additional_context : Option String) : String :=
  pyLower (topic ++ " " ++ (match additional_context with | some s => s | none => ""))

def analyze_topic_context (topic : String) (additional_context : Option String) :
    TopicAnalysis :=
  let combined := analyzeCombined topic additional_context
  let industry :=
    if anyWordIn combined healthcareWords then "healthcare"
    else if anyWordIn combined financeWords then "finance"
    else if anyWordIn combined technologyWords then "technology"
    else if anyWordIn combined educationWords then "education"
    else if anyWordIn combined marketingWords then "marketing"
    else if anyWordIn combined environmentWords then "environment"
    else "general"
  let image_style :=
    if industry = "technology" || anyWordIn combined diagramWords then "illustrations"
    else if industry = "education" || industry = "marketing" then "mixed"
    else "photography"
  let color_scheme :=
    if industry = "healthcare" then "mint-blue"
    else if industry = "finance" || industry = "legal" then "professional-dark"
    else if industry = "environment" then "mint-blue"
    else if industry = "marketing" then "edge-yellow"
    else if industry = "education" then "light-rose"
    else "professional-blue"
  let mood :=
    if anyWordIn combined inspiringWords then "inspiring"
    else if anyWordIn combined seriousWords then "serious"
    else if anyWordIn combined energeticWords then "energetic"
    else "confident"
  let presentation_structure :=
    if anyWordIn combined comparisonStructureWords then "comparison"
    else if anyWordIn combined processStructureWords then "process"
    else if anyWordIn combined researchStructureWords then "research"
    else if anyWordIn combined pitchStructureWords then "pitch"
    else if anyWordIn combined narrativeStructureWords then "narrative"
    else "standard"
  let audience_level :=
    if anyWordIn combined executiveWords then "executive"
    else if anyWordIn combined technicalWords then "technical"
    else if anyWordIn combined beginnerWords then "beginner"
    else if anyWordIn combined advancedWords then "advanced"
    else "general"
  { industry := industry
    image_style := image_style
    color_scheme := color_scheme
    mood := mood
    presentation_structure := presentation_structure
    audience_level := audience_level }

/-! # The claims -/

/-- C5: every failed model-invocation call is classified by status: 429 (or a
rate-limit marker) raises the rate-limit category, 402 (or a credit marker)
the quota-exhausted category, and every other non-success the generic
category; `generate_script` surfaces a 429 as the rate-limit category (the
pipeline contains no retry and no handler, so the classification is what the
caller sees). -/
theorem c5_invocation_failure_classification :
    (∀ (status : Int) (body : String) (content : Option String),
      ¬(200 ≤ status ∧ status ≤ 299) →
      call_lovable_ai_outcome status body content
        = .error (if status = 429 then .rateLimit
                  else if status = 402 then .credits
                  else .gateway status body))
    ∧ (∀ msg, (pyContains msg "429" || pyContains (pyLower msg) "rate limit") = true →
        classify_ai_error msg = .rateLimit)
    ∧ (∀ msg, (pyContains msg "429" || pyContains (pyLower msg) "rate limit") = false →
        (pyContains msg "402" || pyContains (pyLower msg) "credit") = true →
        classify_ai_error msg = .credits)
    ∧ (∀ msg, (pyContains msg "429" || pyContains (pyLower msg) "rate limit") = false →
        (pyContains msg "402" || pyContains (pyLower msg) "credit") = false →
        classify_ai_error msg = .generic ("AI error: " ++ msg))
    ∧ (∀ (body : String) (content : Option String),
        generate_script_pipeline 429 body content = .error (.call .rateLimit)) := by
  refine ⟨?_, ?_, ?_, ?_, ?_⟩
  · intro status body content h
    unfold call_lovable_ai_outcome
    rw [if_neg h]
    split_ifs <;> rfl
  · intro msg h
    unfold classify_ai_error
    rw [if_pos h]
  · intro msg h1 h2
    unfold classify_ai_error
    rw [if_neg (by simp [h1]), if_pos h2]
  · intro msg h1 h2
    unfold classify_ai_error
    rw [if_neg (by simp [h1]), if_neg (by simp [h2])]
  · intro body content
    rfl

/-- C5 witness: concrete statuses and markers exercise each category. -/
theorem c5_witness :
    call_lovable_ai_outcome 500 "oops" none = .error (.gateway 500 "oops")
    ∧ call_lovable_ai_outcome 429 "" (some "x") = .error .rateLimit
    ∧ call_lovable_ai_outcome 402 "" none = .error .credits
    ∧ classify_ai_error "HTTP 429 received" = .rateLimit
    ∧ classify_ai_error "No credit left" = .credits
    ∧ classify_ai_error "boom" = .generic "AI error: boom"
    ∧ generate_script_pipeline 429 "" none = .error (.call .rateLimit) := by
  refine ⟨?_, ?_, ?_, ?_, ?_, ?_, ?_⟩
  · have h := c5_invocation_failure_classification.1 500 "oops" none (by omega)
    simpa using h
  · have h := c5_invocation_failure_classification.1 429 "" (some "x") (by omega)
    simpa using h
  · have h := c5_invocation_failure_classification.1 402 "" none (by omega)
    simpa using h
  · exact c5_invocation_failure_classification.2.1 "HTTP 429 received" (by decide)
  · exact c5_invocation_failure_classification.2.2.1 "No credit left" (by decide) (by decide)
  · exact c5_invocation_failure_classification.2.2.2.1 "boom" (by decide) (by decide)
  · exact c5_invocation_failure_classification.2.2.2.2 "" none

/-- Strings pass through Python `str()` unchanged, elementwise. -/
theorem pyStr_map_str (ss : List String) : (ss.map Json.str).map pyStr = ss := by
  rw [List.map_map]
  have h : pyStr ∘ Json.str = id := by
    funext s
    simp [pyStr, Function.comp]
  rw [h, List.map_id]

/-- A text field value that is a string or a list of strings, as the typed
result mapper's normalization rules describe them. -/
def textOrList : (String ⊕ List String) → Json
  | .inl s => .str s
  | .inr ss => .arr (ss.map Json.str)

/-- C6: the typed result mapper's content normalization: a list arrives as
its items newline-joined; a mapping arrives as `key: value` lines (list
values themselves newline-joined first); in particular
`{"content": ["a","b"]}` maps to `"a\nb"` and
`{"content": {"x": "1", "y": ["2","3"]}}` to `"x: 1\ny: 2\n3"`. -/
theorem c6_content_normalization :
    (∀ ss : List String,
      slideContentField (.obj [("content", .arr (ss.map Json.str))])
        = String.intercalate "\n" ss)
    ∧ (∀ kvs : List (String × (String ⊕ List String)),
      slideContentField (.obj [("content", .obj (kvs.map (fun kv => (kv.1, textOrList kv.2))))])
        = String.intercalate "\n" (kvs.map (fun kv =>
            kv.1 ++ ": " ++ (match kv.2 with
              | .inl s => s
              | .inr ss => String.intercalate "\n" ss))))
    ∧ slideContentField (.obj [("content", .arr [.str "a", .str "b"])]) = "a\nb"
    ∧ slideContentField (.obj [("content",
        .obj [("x", .str "1"), ("y", .arr [.str "2", .str "3"])])]) = "x: 1\ny: 2\n3" := by
  refine ⟨?_, ?_, rfl, rfl⟩
  · intro ss
    cases ss with
    | nil => rfl
    | cons a tl =>
        show slideContentField (.obj [("content", .arr ((a :: tl).map Json.str))])
          = String.intercalate "\n" (a :: tl)
        rw [show slideContentField (.obj [("content", .arr ((a :: tl).map Json.str))])
            = String.intercalate "\n" (((a :: tl).map Json.str).map pyStr) from rfl]
        rw [pyStr_map_str]
  · intro kvs
    cases kvs with
    | nil => rfl
    | cons kv tl =>
        rw [show slideContentField (.obj [("content",
              .obj ((kv :: tl).map (fun kv => (kv.1, textOrList kv.2))))])
            = String.intercalate "\n" (((kv :: tl).map (fun kv => (kv.1, textOrList kv.2))).map
                (fun p =>
                  match p.2 with
                  | .arr elems2 => p.1 ++ ": " ++ String.intercalate "\n" (elems2.map pyStr)
                  | _ => p.1 ++ ": " ++ pyStr p.2)) from rfl]
        congr 1
        rw [List.map_map]
        apply List.map_congr_left
        intro x _
        rcases x with ⟨k, s | ss⟩
        · simp [textOrList, pyStr, Function.comp]
        · simp only [textOrList, Function.comp]
          rw [pyStr_map_str]

/-- C7: the topic classifier is total (it is a function; the empty inputs
evaluate to all defaults), and whenever no keyword group of a dimension
matches, that dimension yields its documented default. -/
theorem c7_classifier_defaults :
    (detect_content_type "" "" = "general")
    ∧ (analyze_topic_context "" none
        = ⟨"general", "photography", "professional-blue", "confident", "standard", "general"⟩)
    ∧ (∀ t c, anyWordIn (detectCombined t c) tutorialWords = false →
        anyWordIn (detectCombined t c) comparisonTypeWords = false →
        anyWordIn (detectCombined t c) pitchTypeWords = false →
        anyWordIn (detectCombined t c) reportTypeWords = false →
        anyWordIn (detectCombined t c) trainingTypeWords = false →
        anyWordIn (detectCombined t c) timelineTypeWords = false →
        anyWordIn (detectCombined t c) caseStudyTypeWords = false →
        detect_content_type t c = "general")
    ∧ (∀ t c, anyWordIn (analyzeCombined t c) healthcareWords = false →
        anyWordIn (analyzeCombined t c) financeWords = false →
        anyWordIn (analyzeCombined t c) technologyWords = false →
        anyWordIn (analyzeCombined t c) educationWords = false →
        anyWordIn (analyzeCombined t c) marketingWords = false →
        anyWordIn (analyzeCombined t c) environmentWords = false →
        (analyze_topic_context t c).industry = "general"
        ∧ (analyze_topic_context t c).color_scheme = "professional-blue")
    ∧ (∀ t c, anyWordIn (analyzeCombined t c) inspiringWords = false →
        anyWordIn (analyzeCombined t c) seriousWords = false →
        anyWordIn (analyzeCombined t c) energeticWords = false →
        (analyze_topic_context t c).mood = "confident")
    ∧ (∀ t c, anyWordIn (analyzeCombined t c) comparisonStructureWords = false →
        anyWordIn (analyzeCombined t c) processStructureWords = false →
        anyWordIn (analyzeCombined t c) researchStructureWords = false →
        anyWordIn (analyzeCombined t c) pitchStructureWords = false →
        anyWordIn (analyzeCombined t c) narrativeStructureWords = false →
        (analyze_topic_context t c).presentation_structure = "standard")
    ∧ (∀ t c, anyWordIn (analyzeCombined t c) executiveWords = false →
        anyWordIn (analyzeCombined t c) technicalWords = false →
        anyWordIn (analyzeCombined t c) beginnerWords = false →
        anyWordIn (analyzeCombined t c) advancedWords = false →
        (analyze_topic_context t c).audience_level = "general") := by
  refine ⟨rfl, rfl, ?_, ?_, ?_, ?_, ?_⟩
  · intro t c h1 h2 h3 h4 h5 h6 h7
    simp [detect_content_type, h1, h2, h3, h4, h5, h6, h7]
  · intro t c h1 h2 h3 h4 h5 h6
    simp [analyze_topic_context, h1, h2, h3, h4, h5, h6]
  · intro t c h1 h2 h3
    simp [analyze_topic_context, h1, h2, h3]
  · intro t c h1 h2 h3 h4 h5
    simp [analyze_topic_context, h1, h2, h3, h4, h5]
  · intro t c h1 h2 h3 h4
    simp [analyze_topic_context, h1, h2, h3, h4]

/-- C7 witness: the empty inputs discharge every no-keyword hypothesis. -/
theorem c7_witness :
    detect_content_type "" "nothing remarkable here" = "general"
    ∧ (analyze_topic_context "zzz" (some "qqq")).industry = "general"
    ∧ (analyze_topic_context "zzz" (some "qqq")).color_scheme
        = "professional-blue"
    ∧ (analyze_topic_context "zzz" (some "qqq")).mood = "confident"
    ∧ (analyze_topic_context "zzz" (some "qqq")).presentation_structure
        = "standard"
    ∧ (analyze_topic_context "zzz" (some "qqq")).audience_level
        = "general" := by
  have hd := c7_classifier_defaults.2.2.1 "" "nothing remarkable here"
    (by decide) (by decide) (by decide) (by decide) (by decide) (by decide) (by decide)
  have hi := c7_classifier_defaults.2.2.2.1 "zzz" (some "qqq")
    (by decide) (by decide) (by decide) (by decide) (by decide) (by decide)
  have hm := c7_classifier_defaults.2.2.2.2.1 "zzz" (some "qqq")
    (by decide) (by decide) (by decide)
  have hs := c7_classifier_defaults.2.2.2.2.2.1 "zzz" (some "qqq")
    (by decide) (by decide) (by decide) (by decide) (by decide)
  have ha := c7_classifier_defaults.2.2.2.2.2.2 "zzz" (some "qqq")
    (by decide) (by decide) (by decide) (by decide)
  exact ⟨hd, hi.1, hi.2, hm, hs, ha⟩

/-- The brace-scan strategy recovers JSON from `raw`. -/
def braceStrategyOk (raw : String) : Bool :=
  match braceSpan raw.data with
  | some span => (loadsL span).isOk
  | none => false

/-- C9: when no extraction strategy can coerce the reply to JSON, exactly the
structure-analysis and manuscript-analysis features return their fixed
fallback objects, while the course (titles/outline/script), slides, quiz and
exercise parse paths surface an error; the fallbacks are complete fixed
objects, never partial results. -/
theorem c9_parse_failure_policy (raw : String)
    (h1 : (loadsL (extractionCandidate raw)).isOk = false)
    (h2 : braceStrategyOk raw = false) :
    analyze_course_structure_result raw = analyzeStructureFallback
    ∧ analyze_manuscript_result raw = analyzeManuscriptFallback
    ∧ (extract_json_course raw).isOk = false
    ∧ (extract_json_slides raw).isOk = false
    ∧ (generate_quiz_parse raw).isOk = false
    ∧ (generate_exercises_parse raw).isOk = false := by
  unfold braceStrategyOk at h2
  have hb : ∀ fb : Json, braceScanWithFallback raw fb = fb := by
    intro fb
    unfold braceScanWithFallback
    cases hbs : braceSpan raw.data with
    | none => rfl
    | some sp =>
        have h2' : (loadsL sp).isOk = false := by rw [hbs] at h2; exact h2
        cases hsp : loadsL sp with
        | ok j => rw [hsp] at h2'; exact Bool.noConfusion h2'
        | error e => simp [hsp]
  refine ⟨hb _, hb _, ?_, ?_, ?_, ?_⟩
  · unfold extract_json_course
    cases hc : loadsL (extractionCandidate raw) with
    | ok j => rw [hc] at h1; exact Bool.noConfusion h1
    | error e1 =>
        cases hbs : braceSpan raw.data with
        | none => rfl
        | some sp =>
            have h2' : (loadsL sp).isOk = false := by rw [hbs] at h2; exact h2
            cases hsp : loadsL sp with
            | ok j => rw [hsp] at h2'; exact Bool.noConfusion h2'
            | error e2 => simp [hsp, Except.isOk, Except.toBool]
  · unfold extract_json_slides
    cases hc : loadsL (extractionCandidate raw) with
    | ok j => rw [hc] at h1; exact Bool.noConfusion h1
    | error e1 =>
        cases hbs : braceSpan raw.data with
        | none => rfl
        | some sp =>
            have h2' : (loadsL sp).isOk = false := by rw [hbs] at h2; exact h2
            cases hsp : loadsL sp with
            | ok j => rw [hsp] at h2'; exact Bool.noConfusion h2'
            | error e2 => simp [hsp, Except.isOk, Except.toBool]
  · unfold generate_quiz_parse inline_parse
    cases hc : loadsL (extractionCandidate raw) with
    | ok j => rw [hc] at h1; exact Bool.noConfusion h1
    | error e => rfl
  · unfold generate_exercises_parse inline_parse
    cases hc : loadsL (extractionCandidate raw) with
    | ok j => rw [hc] at h1; exact Bool.noConfusion h1
    | error e => rfl

/-- C9 witness: a reply none of the strategies can parse. -/
theorem c9_witness :
    analyze_course_structure_result "not json at all" = analyzeStructureFallback
    ∧ analyze_manuscript_result "not json at all" = analyzeManuscriptFallback
    ∧ (extract_json_course "not json at all").isOk = false
    ∧ (extract_json_slides "not json at all").isOk = false
    ∧ (generate_quiz_parse "not json at all").isOk = false
    ∧ (generate_exercises_parse "not json at all").isOk = false :=
  c9_parse_failure_policy "not json at all" (by decide) (by decide)

/-- Disequality transfers to the Boolean equality test on JSON values. -/
theorem jsonBEq_of_ne {a b : Json} (h : a ≠ b) : (a == b) = false := by
  cases hab : jsonBEq a b with
  | true => exact absurd ((jsonBEq_eq a b).mp hab) h
  | false => exact hab

theorem jsonBEq_false_ne {a b : Json} (h : (a == b) = false) : a ≠ b := by
  intro heq
  subst heq
  have h' : jsonBEq a a = false := h
  rw [(jsonBEq_eq a a).mpr rfl] at h'
  exact Bool.noConfusion h'

/-- A well-typed `layout` field: absent, falsy (so the default applies) or a
string. -/
def layoutFieldOk (sd : Json) : Bool :=
  match jsonGet sd "layout" with
  | none => true
  | some v => pyFalsy v || (match v with | .str _ => true | _ => false)

/-- Adjacent elements all differ. -/
def adjacentLayoutsDiffer : List Json → Bool
  | [] => true
  | [_] => true
  | a :: b :: rest => !(a == b) && adjacentLayoutsDiffer (b :: rest)

/-- With a well-typed layout field the defaulted layout value is a string. -/
theorem pyGetOr_layout_str (sd : Json) (h : layoutFieldOk sd = true) :
    ∃ s, pyGetOr sd "layout" (.str "title-content") = .str s := by
  unfold layoutFieldOk at h
  unfold pyGetOr
  cases hv : jsonGet sd "layout" with
  | none => exact ⟨"title-content", rfl⟩
  | some v =>
      rw [hv] at h
      by_cases hf : pyFalsy v = true
      · exact ⟨"title-content", by simp [hf]⟩
      · cases v with
        | str s => exact ⟨s, by simp [hf]⟩
        | null | bool _ | num _ | arr _ | obj _ => exact absurd (by simpa using h) hf

/-- The chosen layout is always a string under a well-typed layout field. -/
theorem slideLayoutChoice_is_str (sd : Json) (i : Nat) (prev : Option Json)
    (h : layoutFieldOk sd = true) : ∃ s, slideLayoutChoice sd i prev = .str s := by
  obtain ⟨s, hs⟩ := pyGetOr_layout_str sd h
  unfold slideLayoutChoice
  rw [hs]
  by_cases hc : ((match prev with | some p => Json.str s == p | none => false)
      && decide (0 < i)) = true
  · rw [if_pos hc]
    cases hfl : alternativeLayoutNames.filter (fun l => !(Json.str l == Json.str s)) with
    | nil => exact ⟨s, rfl⟩
    | cons a rest => exact ⟨_, rfl⟩
  · rw [if_neg (by simpa using hc)]
    exact ⟨s, rfl⟩

/-- The alternatives list never filters down to nothing: two of its entries
are distinct, so at most one can equal the repeated layout. -/
theorem alternatives_filter_ne_nil (x : Json) :
    alternativeLayoutNames.filter (fun l => !(Json.str l == x)) ≠ [] := by
  intro hempty
  by_cases hts : Json.str "title-content" = x
  · have hmem : "bullet-points" ∈ alternativeLayoutNames.filter (fun l => !(Json.str l == x)) := by
      apply List.mem_filter.mpr
      refine ⟨by simp [alternativeLayoutNames], ?_⟩
      rw [← hts]
      simp [jsonBEq_of_ne (by simp : (Json.str "bullet-points") ≠ (Json.str "title-content"))]
    rw [hempty] at hmem
    exact absurd hmem (List.not_mem_nil _)
  · have hmem : "title-content" ∈ alternativeLayoutNames.filter (fun l => !(Json.str l == x)) := by
      apply List.mem_filter.mpr
      exact ⟨by simp [alternativeLayoutNames], by simp [jsonBEq_of_ne hts]⟩
    rw [hempty] at hmem
    exact absurd hmem (List.not_mem_nil _)

/-- Past the first slide, the chosen layout never repeats the previous one. -/
theorem slideLayoutChoice_ne_prev (sd : Json) (i : Nat) (p : Json)
    (h : layoutFieldOk sd = true) (hi : 0 < i) :
    slideLayoutChoice sd i (some p) ≠ p := by
  obtain ⟨s, hs⟩ := pyGetOr_layout_str sd h
  unfold slideLayoutChoice
  rw [hs]
  by_cases heq : (Json.str s == p) = true
  · rw [if_pos (by simp [heq, hi])]
    have hp : Json.str s = p := (jsonBEq_eq _ _).mp heq
    cases hfl : alternativeLayoutNames.filter (fun l => !(Json.str l == Json.str s)) with
    | nil => exact absurd hfl (alternatives_filter_ne_nil (Json.str s))
    | cons a rest =>
        intro hcontra
        have hcontra' : Json.str ((a :: rest).get
            ⟨i % (a :: rest).length, Nat.mod_lt _ (Nat.succ_pos _)⟩) = p := hcontra
        have hmem : (a :: rest).get ⟨i % (a :: rest).length, Nat.mod_lt _ (Nat.succ_pos _)⟩
            ∈ a :: rest := List.get_mem _ _ _
        have hmem' : (a :: rest).get ⟨i % (a :: rest).length, Nat.mod_lt _ (Nat.succ_pos _)⟩
            ∈ alternativeLayoutNames.filter (fun l => !(Json.str l == Json.str s)) := by
          rw [hfl]; exact hmem
        have hpred := (List.mem_filter.mp hmem').2
        simp only [Bool.not_eq_true'] at hpred
        rw [← hp] at hcontra'
        exact absurd hcontra' (jsonBEq_false_ne hpred)
  · rw [if_neg (by simp [heq])]
    exact fun hc => heq ((jsonBEq_eq _ _).mpr (hs ▸ hc))

/-- The loop invariant: all adjacent final layouts differ, and past the first
slide the head's layout differs from the carried previous layout. -/
theorem mapSlidesLoop_layouts :
    ∀ (elems : List Json) (i : Nat) (prev : Option Json) (out : List SlideContent),
      (∀ sd ∈ elems, layoutFieldOk sd = true) →
      mapSlidesLoop elems i prev = .ok out →
      adjacentLayoutsDiffer (out.map (fun s => s.layout)) = true
      ∧ (∀ p, prev = some p → 0 < i →
          match out with
          | [] => True
          | s0 :: _ => s0.layout ≠ p) := by
  intro elems
  induction elems with
  | nil =>
      intro i prev out _ hout
      cases hout
      exact ⟨rfl, by intro p _ _; trivial⟩
  | cons sd rest ih =>
      intro i prev out hlay hout
      have hsd : layoutFieldOk sd = true := hlay sd (by simp)
      have hrest : ∀ x ∈ rest, layoutFieldOk x = true := fun x hx => hlay x (by simp [hx])
      cases sd with
      | obj ms =>
          simp only [mapSlidesLoop] at hout
          cases hrec : mapSlidesLoop rest (i + 1) (some (slideLayoutChoice (.obj ms) i prev)) with
          | error e => rw [hrec] at hout; cases hout
          | ok slides =>
              rw [hrec] at hout
              cases hout
              obtain ⟨hchain, hhead⟩ := ih (i + 1) _ slides hrest hrec
              constructor
              · have hlayeq :
                    (mapSlide (.obj ms) i (slideLayoutChoice (.obj ms) i prev)).layout
                      = slideLayoutChoice (.obj ms) i prev := rfl
                cases slides with
                | nil => simp [adjacentLayoutsDiffer]
                | cons s1 tl =>
                    have hne : s1.layout ≠ slideLayoutChoice (.obj ms) i prev :=
                      hhead _ rfl (by omega)
                    simp only [List.map_cons, adjacentLayoutsDiffer, hlayeq,
                      Bool.and_eq_true, Bool.not_eq_true']
                    exact ⟨jsonBEq_of_ne (fun hx => hne hx.symm), hchain⟩
              · intro p hprev hi
                subst hprev
                exact slideLayoutChoice_ne_prev (.obj ms) i p hsd hi
      | null | bool _ | num _ | str _ | arr _ =>
          simp only [mapSlidesLoop] at hout
          cases hout

/-- C10: in every slide list `generate_slides` maps successfully, no two
consecutive slides carry the same layout value; and whenever a slide repeats
the previous layout, the replacement is drawn from the fixed alternatives
list with the repeated value excluded. -/
theorem c10_layout_variety :
    (∀ (data : Json) (elems : List Json) (out : List SlideContent),
      jsonGet data "slides" = some (.arr elems) →
      (∀ sd ∈ elems, layoutFieldOk sd = true) →
      generate_slides_mapSlides data = .ok out →
      adjacentLayoutsDiffer (out.map (fun s => s.layout)) = true)
    ∧ (∀ (sd : Json) (i : Nat) (p : Json), layoutFieldOk sd = true → 0 < i →
        pyGetOr sd "layout" (.str "title-content") = p →
        slideLayoutChoice sd i (some p)
          ∈ (alternativeLayoutNames.filter (fun l => !(Json.str l == p))).map Json.str) := by
  constructor
  · intro data elems out hslides hlay hout
    cases data with
    | obj members =>
        unfold generate_slides_mapSlides at hout
        rw [hslides] at hout
        exact (mapSlidesLoop_layouts elems 0 none out hlay hout).1
    | null | bool _ | num _ | str _ | arr _ => cases hout
  · intro sd i p hok hi hp
    obtain ⟨s, hs⟩ := pyGetOr_layout_str sd hok
    have hps : p = Json.str s := by rw [← hp, hs]
    subst hps
    unfold slideLayoutChoice
    rw [hs, if_pos (by simp [hi]; exact (jsonBEq_eq _ _).mpr rfl)]
    cases hfl : alternativeLayoutNames.filter (fun l => !(Json.str l == Json.str s)) with
    | nil => exact absurd hfl (alternatives_filter_ne_nil (Json.str s))
    | cons a rest =>
        have hmem : (a :: rest).get ⟨i % (a :: rest).length, Nat.mod_lt _ (Nat.succ_pos _)⟩
            ∈ a :: rest := List.get_mem _ _ _
        exact List.mem_map_of_mem Json.str hmem

/-- The final layouts of a mapped response (empty on a mapping error). -/
def mappedLayouts (data : Json) : List Json :=
  match generate_slides_mapSlides data with
  | .ok out => out.map (fun s => s.layout)
  | .error _ => []

/-- C10 witness: a payload whose model-returned layouts repeat. -/
theorem c10_witness :
    adjacentLayoutsDiffer (mappedLayouts (.obj [("slides", .arr
      [.obj [("layout", .str "quote")],
       .obj [("layout", .str "quote")],
       .obj [("layout", .str "quote")]])])) = true := by
  have h := c10_layout_variety.1 (.obj [("slides", .arr
      [.obj [("layout", .str "quote")],
       .obj [("layout", .str "quote")],
       .obj [("layout", .str "quote")]])])
    [.obj [("layout", .str "quote")],
     .obj [("layout", .str "quote")],
     .obj [("layout", .str "quote")]] _ rfl (by intro sd hsd; fin_cases hsd <;> rfl) rfl
  exact h

/-- C3 counterexample: requests with non-positive count fields pass every check
that precedes the external call — `generate_outline` with `num_modules = 0` and
`generate_quiz` with `num_questions = 0` both reach the invocation. -/
theorem c3_counterexample :
    (generate_outline_preCall { title := "Test", num_modules := 0 }).isOk = true
    ∧ (generate_quiz_preCall "test-key"
        { module_title := "M", module_content := "C", course_title := "K",
          num_questions := 0 }).isOk = true :=
  ⟨rfl, rfl⟩

/-- C3 (amended): pre-call validation checks exactly one text condition per
feature — a required text field stripped non-empty (titles, outline, script,
slides) or the configured key non-empty (quiz, exercises) — and never examines
a count field: the validation outcome is a function of that one text field
alone, so non-positive counts pass. -/
theorem c3_validation_text_fields_only :
    (∀ r : TitleGenerationRequest, (generate_titles_preCall r).isOk
        = !(r.title.isEmpty || (pyStripS r.title).isEmpty))
    ∧ (∀ r : OutlineGenerationRequest, (generate_outline_preCall r).isOk
        = !(r.title.isEmpty || (pyStripS r.title).isEmpty))
    ∧ (∀ r : ScriptGenerationRequest, (generate_script_preCall r).isOk
        = !(r.module_title.isEmpty || (pyStripS r.module_title).isEmpty))
    ∧ (∀ r : SlideGenerationRequest, (generate_slides_validate r).isOk
        = !(r.script_content.isEmpty || (pyStripS r.script_content).isEmpty))
    ∧ (∀ (k : String) (r : QuizGenerationRequest),
        (generate_quiz_preCall k r).isOk = !k.isEmpty)
    ∧ (∀ (k : String) (r : ExerciseGenerationRequest),
        (generate_exercises_preCall k r).isOk = !k.isEmpty) := by
  refine ⟨?_, ?_, ?_, ?_, ?_, ?_⟩
  · intro r
    unfold generate_titles_preCall
    cases h : (r.title.isEmpty || (pyStripS r.title).isEmpty) with
    | true => rfl
    | false => rfl
  · intro r
    unfold generate_outline_preCall
    cases h : (r.title.isEmpty || (pyStripS r.title).isEmpty) with
    | true => rfl
    | false => rfl
  · intro r
    unfold generate_script_preCall
    cases h : (r.module_title.isEmpty || (pyStripS r.module_title).isEmpty) with
    | true => rfl
    | false => rfl
  · intro r
    unfold generate_slides_validate
    cases h : (r.script_content.isEmpty || (pyStripS r.script_content).isEmpty) with
    | true => rfl
    | false => rfl
  · intro k r
    unfold generate_quiz_preCall
    cases h : k.isEmpty with
    | true => rfl
    | false => rfl
  · intro k r
    unfold generate_exercises_preCall
    cases h : k.isEmpty with
    | true => rfl
    | false => rfl

/-- C4 counterexample: a valid JSON object prefixed by prose and not fenced
makes the quiz parse raise the decode error — while the course extractor, which
does have the brace-scan fallback the claim describes, recovers the object from
the same reply. -/
theorem c4_counterexample :
    generate_quiz_parse "Here is your quiz: \x7b\"questions\": [1, 2, 3]\x7d"
      = .error "Expecting value"
    ∧ extract_json_course "Here is your quiz: \x7b\"questions\": [1, 2, 3]\x7d"
      = .ok (.obj [("questions", .arr [.num 1, .num 2, .num 3])]) :=
  ⟨rfl, rfl⟩

/-- C4 (amended): `generate_quiz`'s parse has no brace-scan fallback: with no
fenced block, the reply is parsed once after stripping and that parse's failure
is the call's outcome, even on replies whose brace span holds valid JSON that
the course extractor would return. -/
theorem c4_quiz_inline_only (raw : String) (e : String) (j : Json) (sp : List Char)
    (hnf : fencedGroup raw.data = none)
    (hfail : loadsL (pyStrip raw.data) = .error e)
    (hbrace : braceSpan raw.data = some sp)
    (hsp : loadsL sp = .ok j) :
    generate_quiz_parse raw = .error e
    ∧ extract_json_course raw = .ok j := by
  have h1 : loadsL (extractionCandidate raw) = .error e := by
    unfold extractionCandidate
    rw [hnf]
    exact hfail
  constructor
  · unfold generate_quiz_parse inline_parse
    exact h1
  · unfold extract_json_course
    simp only [h1, hbrace, hsp]

/-- C4 witness: a prose-prefixed unfenced reply on which the quiz parse fails
with the decode error while the course extractor recovers the object. -/
theorem c4_witness :
    generate_quiz_parse "The quiz follows. \x7b\"q\": 3\x7d" = .error "Expecting value"
    ∧ extract_json_course "The quiz follows. \x7b\"q\": 3\x7d" = .ok (.obj [("q", .num 3)]) :=
  c4_quiz_inline_only "The quiz follows. \x7b\"q\": 3\x7d" "Expecting value"
    (.obj [("q", .num 3)]) _ rfl rfl rfl rfl

/-- Slicing to a ceiling is idempotent. -/
theorem pyTake_pyTake (n : Nat) (s : String) : pyTake n (pyTake n s) = pyTake n s := by
  unfold pyTake
  simp [List.take_take]

/-- C8 counterexample: content one character over the exercise ceiling yields a
prompt identical to the content cut at the ceiling — nothing notes that
truncation happened. -/
theorem c8_counterexample :
    generate_exercises_preCall "k"
      { module_title := "M", module_content := ⟨List.replicate 3001 'a'⟩,
        course_title := "C" }
    = generate_exercises_preCall "k"
      { module_title := "M", module_content := ⟨List.replicate 3000 'a'⟩,
        course_title := "C" } := by
  have ht : pyTake 3000 (⟨List.replicate 3001 'a'⟩ : String)
      = pyTake 3000 (⟨List.replicate 3000 'a'⟩ : String) := by
    unfold pyTake
    simp only [List.take_replicate]
    norm_num
  simp only [generate_exercises_preCall, ht]

/-- C8 (amended): each feature slices the subject text to its fixed ceiling —
6000 for slides, 3000 for exercise and quiz module content, 10000 for
manuscript analysis — with no truncation note: the assembled prompt cannot
distinguish over-ceiling text from its cut; text at or under the ceiling is
included unchanged. -/
theorem c8_truncation_silent :
    (∀ r : SlideGenerationRequest,
      slidesUserPrompt r
        = slidesUserPrompt { r with script_content := pyTake 6000 r.script_content })
    ∧ (∀ (k : String) (r : ExerciseGenerationRequest),
        generate_exercises_preCall k r
          = generate_exercises_preCall k
              { r with module_content := pyTake 3000 r.module_content })
    ∧ (∀ (k : String) (r : QuizGenerationRequest),
        generate_quiz_preCall k r
          = generate_quiz_preCall k
              { r with module_content := pyTake 3000 r.module_content })
    ∧ (∀ s : String, analyze_manuscript_userContent s
        = analyze_manuscript_userContent (pyTake 10000 s))
    ∧ (∀ s : String, s.length ≤ 10000 → analyze_manuscript_userContent s = s) := by
  refine ⟨?_, ?_, ?_, ?_, ?_⟩
  · intro r
    simp only [slidesUserPrompt, pyTake_pyTake]
  · intro k r
    simp only [generate_exercises_preCall, pyTake_pyTake]
  · intro k r
    simp only [generate_quiz_preCall, pyTake_pyTake]
  · intro s
    simp only [analyze_manuscript_userContent, pyTake_pyTake]
  · intro s h
    cases s with
    | mk data =>
        unfold analyze_manuscript_userContent pyTake
        congr 1
        exact List.take_of_length_le (by simpa [String.length] using h)

/-- C8 witness: a short manuscript passes through unchanged. -/
theorem c8_witness :
    analyze_manuscript_userContent "short manuscript" = "short manuscript" :=
  c8_truncation_silent.2.2.2.2 "short manuscript" (by decide)

/-- C1 counterexample: when the brace-span parse also fails, the raised error
is that second parse's own message, not a wrap of the original one (course
variant); and with no span the slides variant raises a fixed message carrying
no original error at all. -/
theorem c1_counterexample :
    extract_json_course "hello \x7bworld\x7d" = .error (.decodeErr "Expecting property name")
    ∧ extract_json_slides "hello" = .error .failedFixed :=
  ⟨rfl, rfl⟩

/-- C1 (amended): the ordered, short-circuiting extraction algorithm — fenced
inner text (stripped) as the candidate when a fence exists, else the stripped
raw text; candidate parse returned on success; on failure the brace span of
the original text is parsed; a failing span parse raises that second parse's
error; only when no span exists does the course variant wrap the original
message, while the slides variant raises its fixed message. -/
theorem c1_extractor_algorithm (raw : String) :
    (∀ inner, fencedGroup raw.data = some inner →
        extractionCandidate raw = pyStrip inner)
    ∧ (fencedGroup raw.data = none → extractionCandidate raw = pyStrip raw.data)
    ∧ (∀ j, loadsL (extractionCandidate raw) = .ok j →
        extract_json_course raw = .ok j ∧ extract_json_slides raw = .ok j)
    ∧ (∀ e1 sp j, loadsL (extractionCandidate raw) = .error e1 →
        braceSpan raw.data = some sp → loadsL sp = .ok j →
        extract_json_course raw = .ok j ∧ extract_json_slides raw = .ok j)
    ∧ (∀ e1 sp e2, loadsL (extractionCandidate raw) = .error e1 →
        braceSpan raw.data = some sp → loadsL sp = .error e2 →
        extract_json_course raw = .error (.decodeErr e2)
        ∧ extract_json_slides raw = .error (.decodeErr e2))
    ∧ (∀ e1, loadsL (extractionCandidate raw) = .error e1 →
        braceSpan raw.data = none →
        extract_json_course raw = .error (.wrapped e1)
        ∧ extract_json_slides raw = .error .failedFixed) := by
  refine ⟨?_, ?_, ?_, ?_, ?_, ?_⟩
  · intro inner hf
    unfold extractionCandidate
    rw [hf]
  · intro hf
    unfold extractionCandidate
    rw [hf]
  · intro j hc
    constructor
    · unfold extract_json_course
      simp only [hc]
    · unfold extract_json_slides
      simp only [hc]
  · intro e1 sp j hc hbs hsp
    constructor
    · unfold extract_json_course
      simp only [hc, hbs, hsp]
    · unfold extract_json_slides
      simp only [hc, hbs, hsp]
  · intro e1 sp e2 hc hbs hsp
    constructor
    · unfold extract_json_course
      simp only [hc, hbs, hsp]
    · unfold extract_json_slides
      simp only [hc, hbs, hsp]
  · intro e1 hc hbs
    constructor
    · unfold extract_json_course
      simp only [hc, hbs]
    · unfold extract_json_slides
      simp only [hc, hbs]

/-- C1 witness: the wrap-on-no-span and fence-preference behaviors at concrete
replies. -/
theorem c1_witness :
    extract_json_course "hello" = .error (.wrapped "Expecting value")
    ∧ extract_json_slides "hello" = .error .failedFixed
    ∧ extract_json_course "pre \x7b\"a\": 1\x7d post" = .ok (.obj [("a", .num 1)]) :=
  ⟨((c1_extractor_algorithm "hello").2.2.2.2.2 "Expecting value" rfl rfl).1,
   ((c1_extractor_algorithm "hello").2.2.2.2.2 "Expecting value" rfl rfl).2,
   ((c1_extractor_algorithm "pre \x7b\"a\": 1\x7d post").2.2.2.1 "Expecting value" _
     (.obj [("a", .num 1)]) rfl rfl rfl).1⟩

/-- A pattern matches at the head of itself followed by anything. -/
theorem headMatches_append : ∀ (p y : List Char), headMatches p (p ++ y) = true := by
  intro p
  induction p with
  | nil => intro y; rfl
  | cons c cs ih =>
      intro y
      simp [headMatches, ih y]

/-- The one-step unfolding of `splitFirst` on a cons cell. -/
theorem splitFirst_cons (pat : List Char) (c : Char) (cs : List Char) :
    splitFirst pat (c :: cs)
      = if headMatches pat (c :: cs) = true
        then some ([], List.drop pat.length (c :: cs))
        else match splitFirst pat cs with
          | some (before, after) => some (c :: before, after)
          | none => none := rfl

/-- `splitFirst` finds the first occurrence: with no pattern-head character in
the prefix, it splits exactly around the planted occurrence. -/
theorem splitFirst_append (h : Char) (t : List Char) :
    ∀ (x y : List Char), h ∉ x →
      splitFirst (h :: t) (x ++ (h :: t) ++ y) = some (x, y) := by
  intro x
  induction x with
  | nil =>
      intro y _
      show splitFirst (h :: t) (h :: (t ++ y)) = some ([], y)
      rw [splitFirst_cons]
      rw [if_pos (show headMatches (h :: t) (h :: (t ++ y)) = true from
        headMatches_append (h :: t) y)]
      simp [List.drop_left]
  | cons c x' ih =>
      intro y hx
      have hne : h ≠ c := fun he => hx (he ▸ List.mem_cons_self c x')
      show splitFirst (h :: t) (c :: (x' ++ (h :: t) ++ y)) = some (c :: x', y)
      rw [splitFirst_cons]
      rw [if_neg (by simp [headMatches, hne])]
      rw [ih y (fun hm => hx (List.mem_cons_of_mem c hm))]

/-- The pattern at the very front splits off an empty prefix. -/
theorem splitFirst_self (h : Char) (t rest : List Char) :
    splitFirst (h :: t) ((h :: t) ++ rest) = some ([], rest) := by
  have := splitFirst_append h t [] rest (by simp)
  simpa using this

/-- Without the pattern's head character there is no occurrence at all. -/
theorem splitFirst_none (h : Char) (t : List Char) :
    ∀ l : List Char, h ∉ l → splitFirst (h :: t) l = none := by
  intro l
  induction l with
  | nil => intro _; rfl
  | cons c cs ih =>
      intro hl
      have hne : h ≠ c := fun he => hl (he ▸ List.mem_cons_self c cs)
      rw [splitFirst_cons]
      rw [if_neg (by simp [headMatches, hne])]
      rw [ih (fun hm => hl (List.mem_cons_of_mem c hm))]

/-- A reply with no backtick has no fenced block. -/
theorem fencedGroup_none_of_no_backtick (l : List Char) (h : '`' ∉ l) :
    fencedGroup l = none := by
  unfold fencedGroup
  rw [splitFirst_none '`' ['`', '`'] l h]

/-- The greedy brace span of clean prose around a braced body is exactly the
braced body. -/
theorem braceSpan_concat (a mid b : List Char)
    (ha : '\x7b' ∉ a) (hb : '\x7d' ∉ b) :
    braceSpan (a ++ ('\x7b' :: mid ++ ['\x7d']) ++ b) = some ('\x7b' :: mid ++ ['\x7d']) := by
  unfold braceSpan
  have h1 : splitFirst ['\x7b'] (a ++ ('\x7b' :: mid ++ ['\x7d']) ++ b)
      = some (a, (mid ++ ['\x7d']) ++ b) := by
    have := splitFirst_append '\x7b' [] a ((mid ++ ['\x7d']) ++ b) ha
    rw [show a ++ ('\x7b' :: []) ++ ((mid ++ ['\x7d']) ++ b)
        = a ++ ('\x7b' :: mid ++ ['\x7d']) ++ b from by simp] at this
    exact this
  have h2 : splitFirst ['\x7d'] (((mid ++ ['\x7d']) ++ b).reverse)
      = some (b.reverse, mid.reverse) := by
    have hb' : '\x7d' ∉ b.reverse := fun hm => hb (List.mem_reverse.mp hm)
    have := splitFirst_append '\x7d' [] b.reverse mid.reverse hb'
    rw [show b.reverse ++ ('\x7d' :: []) ++ mid.reverse
        = ((mid ++ ['\x7d']) ++ b).reverse from by simp] at this
    exact this
  simp only [h1]
  simp only [h2]
  simp

/-- A head character that opens no JSON value form fails the value parser. -/
theorem loadsF_nonvalue_head (fuel : Nat) (c : Char) (r : List Char)
    (h1 : c ≠ 'n') (h2 : c ≠ 't') (h3 : c ≠ 'f') (h4 : c ≠ '"') (h5 : c ≠ '-')
    (h6 : c ≠ '[') (h7 : c ≠ '\x7b') (h8 : isDigitChar c = false) :
    loadsF (fuel + 1) .value (c :: r) = .error "Expecting value" := by
  simp [loadsF, h1, h2, h3, h4, h5, h6, h7, h8]

/-- The test scaffolding named by the claim: `fence(s)` wraps `s` in a fenced,
`json`-tagged code block. -/
def fenceWrap (s : String) : String := "```json\n" ++ s ++ "\n```"

/-- On a fenced serialized value with no interior backtick, the fence model
captures the serialized text plus the trailing newline. -/
theorem fencedGroup_fenceWrap (j : Json) (hb : '`' ∉ dumpsL j) :
    fencedGroup (fenceWrap (dumps j)).data = some (dumpsL j ++ ['\n']) := by
  have h1 : splitFirst ['`', '`', '`'] (fenceWrap (dumps j)).data
      = some ([], 'j' :: 's' :: 'o' :: 'n' :: '\n' :: (dumpsL j ++ ['\n', '`', '`', '`'])) := by
    have hdata : (fenceWrap (dumps j)).data
        = ('`' :: '`' :: '`' :: [])
          ++ ('j' :: 's' :: 'o' :: 'n' :: '\n' :: (dumpsL j ++ ['\n', '`', '`', '`'])) := by
      show (['`', '`', '`', 'j', 's', 'o', 'n', '\n'] ++ dumpsL j) ++ ['\n', '`', '`', '`'] = _
      simp
    rw [hdata]
    exact splitFirst_self '`' ['`', '`'] _
  have h3 : splitFirst ['`', '`', '`'] (dumpsL j ++ ['\n', '`', '`', '`'])
      = some (dumpsL j ++ ['\n'], []) := by
    have hx : '`' ∉ dumpsL j ++ ['\n'] := by
      intro hm
      rcases List.mem_append.mp hm with hm | hm
      · exact hb hm
      · simp at hm
    have := splitFirst_append '`' ['`', '`'] (dumpsL j ++ ['\n']) [] hx
    rw [show (dumpsL j ++ ['\n']) ++ ('`' :: ['`', '`']) ++ []
        = dumpsL j ++ ['\n', '`', '`', '`'] from by simp] at this
    exact this
  unfold fencedGroup
  rw [h1]
  show (match splitFirst ['`', '`', '`']
        (wsDrop ('\n' :: (dumpsL j ++ ['\n', '`', '`', '`']))) with
      | none => none
      | some (inner, _) => some inner) = some (dumpsL j ++ ['\n'])
  rw [show wsDrop ('\n' :: (dumpsL j ++ ['\n', '`', '`', '`']))
      = dumpsL j ++ ['\n', '`', '`', '`'] from by
    rw [show wsDrop ('\n' :: (dumpsL j ++ ['\n', '`', '`', '`']))
        = wsDrop (dumpsL j ++ ['\n', '`', '`', '`']) from by
      unfold wsDrop
      rw [List.dropWhile_cons, if_pos (by decide)]]
    exact wsDrop_dumps j _]
  rw [h3]

/-- C2 counterexample: on the prose path the round-trip fails for a non-object
value — a serialized number embedded in prose has no brace span, so extraction
raises instead of returning the value. -/
theorem c2_counterexample :
    extract_json_course ("prose... " ++ dumps (.num 42) ++ " ...more prose")
      = .error (.wrapped "Expecting value") := rfl

/-- C2 (amended): for every JSON value whose serialization contains no
backtick, the fenced and bare extraction paths return exactly the value; the
prose path does so for object values (whose serialization carries the braces
the fallback scans for), not for arbitrary shapes. -/
theorem c2_extraction_roundtrip (v : Json) (hb : '`' ∉ dumpsL v) :
    extract_json_course (fenceWrap (dumps v)) = .ok v
    ∧ extract_json_course (dumps v) = .ok v
    ∧ extract_json_slides (dumps v) = .ok v
    ∧ (∀ ms, v = .obj ms →
        extract_json_course ("prose... " ++ dumps v ++ " ...more prose") = .ok v) := by
  have hfenced : loadsL (extractionCandidate (fenceWrap (dumps v))) = .ok v := by
    have hcand : extractionCandidate (fenceWrap (dumps v)) = dumpsL v := by
      unfold extractionCandidate
      rw [fencedGroup_fenceWrap v hb]
      exact pyStrip_dumpsL_newline v
    rw [hcand]
    exact loads_dumps v
  have hfnone : fencedGroup (dumps v).data = none :=
    fencedGroup_none_of_no_backtick _ hb
  have hbare : loadsL (extractionCandidate (dumps v)) = .ok v := by
    have hcand : extractionCandidate (dumps v) = dumpsL v := by
      unfold extractionCandidate
      rw [hfnone]
      exact pyStrip_dumpsL v
    rw [hcand]
    exact loads_dumps v
  refine ⟨?_, ?_, ?_, ?_⟩
  · unfold extract_json_course
    simp only [hfenced]
  · unfold extract_json_course
    simp only [hbare]
  · unfold extract_json_slides
    simp only [hbare]
  · intro ms hv
    subst hv
    have hp : ("prose... " ++ dumps (.obj ms) ++ " ...more prose").data
        = 'p' :: (("rose... ".data ++ dumpsL (.obj ms)) ++ " ...more prose".data) := rfl
    have hws : wsDrop ("prose... " ++ dumps (.obj ms) ++ " ...more prose").data
        = ("prose... " ++ dumps (.obj ms) ++ " ...more prose").data := by
      rw [hp]
      exact wsDrop_cons _ (by decide)
    obtain ⟨r2, hrev⟩ :
        ∃ r2, ("prose... " ++ dumps (.obj ms) ++ " ...more prose").data.reverse
          = 'e' :: r2 := by
      rw [show ("prose... " ++ dumps (.obj ms) ++ " ...more prose").data
          = ("prose... ".data ++ dumpsL (.obj ms)) ++ " ...more prose".data from rfl,
        List.reverse_append]
      exact ⟨_, rfl⟩
    have hstrip : pyStrip ("prose... " ++ dumps (.obj ms) ++ " ...more prose").data
        = ("prose... " ++ dumps (.obj ms) ++ " ...more prose").data := by
      apply pyStrip_of_ends hws
      rw [hrev]
      exact wsDrop_cons _ (by decide)
    have hnb : '`' ∉ ("prose... " ++ dumps (.obj ms) ++ " ...more prose").data := by
      rw [show ("prose... " ++ dumps (.obj ms) ++ " ...more prose").data
          = ("prose... ".data ++ dumpsL (.obj ms)) ++ " ...more prose".data from rfl]
      intro hm
      rcases List.mem_append.mp hm with hm | hm
      · rcases List.mem_append.mp hm with hm | hm
        · exact absurd hm (by decide)
        · exact hb hm
      · exact absurd hm (by decide)
    have hfnone2 :
        fencedGroup ("prose... " ++ dumps (.obj ms) ++ " ...more prose").data = none :=
      fencedGroup_none_of_no_backtick _ hnb
    have hcand : extractionCandidate ("prose... " ++ dumps (.obj ms) ++ " ...more prose")
        = ("prose... " ++ dumps (.obj ms) ++ " ...more prose").data := by
      unfold extractionCandidate
      rw [hfnone2]
      exact hstrip
    have hload :
        loadsL (extractionCandidate ("prose... " ++ dumps (.obj ms) ++ " ...more prose"))
          = .error "Expecting value" := by
      rw [hcand]
      unfold loadsL
      rw [hws, hp]
      rw [loadsF_nonvalue_head _ 'p' _ (by decide) (by decide) (by decide) (by decide)
        (by decide) (by decide) (by decide) (by decide)]
    have hspan : braceSpan ("prose... " ++ dumps (.obj ms) ++ " ...more prose").data
        = some (dumpsL (.obj ms)) := by
      have hbs := braceSpan_concat "prose... ".data (dumpsObj ms) " ...more prose".data
        (by decide) (by decide)
      exact hbs
    have hok : loadsL (dumpsL (.obj ms)) = .ok (.obj ms) := loads_dumps (.obj ms)
    unfold extract_json_course
    simp only [hload, hspan, hok]

/-- C2 witness: the fenced and prose paths return a concrete object value. -/
theorem c2_witness :
    extract_json_course (fenceWrap (dumps (.obj [("a", .num 1)]))) = .ok (.obj [("a", .num 1)])
    ∧ extract_json_course ("prose... " ++ dumps (.obj [("a", .num 1)]) ++ " ...more prose")
      = .ok (.obj [("a", .num 1)]) :=
  ⟨(c2_extraction_roundtrip (.obj [("a", .num 1)]) (by decide)).1,
   (c2_extraction_roundtrip (.obj [("a", .num 1)]) (by decide)).2.2.2 [("a", .num 1)] rfl⟩
